import Mathlib

/-!
# go-ch-manager: slow-query report pipeline and query comparison

A shallow embedding of

* `entity/report.go`                                   (`SlowQueryReport`)
* `internal/usecase/report_usecase.go`                 (`GetTopSlowQueries`, `getString`,
                                                        `getUint64`, `getFloat64`)
* `internal/usecase/ch_manager_usecase.go`             (`CompareQueries`)
* `internal/repository/sqlite/report_repository.go`    (`GetSlowQueryReports`,
                                                        `SaveSlowQueryReports`)

Conventions.

* Go `error` values are identified with their message (`Error := String`); a Go result
  `(v, err)` is an `Except Error _`, a bare `error` is an `Option Error`.
* `time.Time` is an integer instant counted from Go's zero time, so `0` is `time.Time{}`.
* `int64` is an `Int`, `uint64` a `Nat`; conversions between them reduce modulo `2^64`.
* A finite `float64` is the rational number it denotes.
* The three collaborators of the use cases (`ReportRepository`, `ConnectionRepository`,
  `ClickHouseClient`) are Go interfaces.  They are embedded as records of state-passing
  functions over an arbitrary state type `σ`; every invocation made by a use case is
  appended to a call log, so that "is (not) called" is a statement about that log.
* `context.Context` is handed unchanged to every collaborator and is inspected only by
  `helper.CheckDeadline`; its outcome is a field of the store's fault environment.
-/

namespace ChManager

/-! ## Data model -/

abbrev Error := String

abbrev Time := Int

/-- The zero value `time.Time{}`, for which `IsZero` holds. -/
def zeroTime : Time := 0

/-- Record `entity.SlowQueryReport`, one row of table `slow_query_reports`. -/
structure SlowQueryReport where
  ID : Int
  ConnectionID : Int
  ExecutedBy : String
  SampleQuery : String
  QueryNormalized : String
  Executions : Nat
  AvgDurationMs : ℚ
  P95DurationMs : ℚ
  MaxDurationMs : ℚ
  TotalRowsRead : Nat
  TotalBytesRead : Nat
  LastRefresh : Time
  CreatedAt : Time
  UpdatedAt : Time
  deriving DecidableEq, Repr

/-- Record `entity.CHConnection`; only its use is visible in the sources, the fields are the
ones the use cases and the client read. -/
structure CHConnection where
  ID : Int
  Host : String
  Port : Int
  Protocol : String
  Database : String
  ServerInfo : String
  CreatedAt : Time
  UpdatedAt : Time
  deriving DecidableEq, Repr

/-- A Go `interface{}` as delivered by the ClickHouse driver in a result row. `null` is the nil
interface (also what indexing a map with an absent key yields); `other` stands for a value of
any dynamic type not listed, named by its type. -/
inductive Value where
  | null
  | str (s : String)
  | i64 (n : Int)
  | u64 (n : Nat)
  | f64 (x : ℚ)
  | time (t : Time)
  | strs (xs : List String)
  | other (typeName : String)
  deriving DecidableEq, Repr

/-- One result row, `map[string]interface{}`. -/
abbrev Row := List (String × Value)

/-- Go map indexing `row[key]`: the nil interface when the key is absent. -/
def Row.get (row : Row) (key : String) : Value :=
  match row.lookup key with
  | some v => v
  | none => Value.null

/-- Record `entity.QueryResult`: column descriptors (name, type tag) and the rows. -/
structure QueryResult where
  Columns : List (String × String)
  Rows : List Row
  deriving DecidableEq, Repr

/-- Record `entity.QueryStats`. -/
structure QueryStats where
  ElapsedMs : Nat
  RowsRead : Nat
  BytesRead : Nat
  MemoryUsage : Nat
  Result : Option QueryResult
  deriving DecidableEq, Repr

/-- Record `entity.CompareResult`. -/
structure CompareResult where
  Query1Stats : QueryStats
  Query2Stats : QueryStats
  deriving DecidableEq, Repr

/-! ## Row-value coercion helpers (`report_usecase.go`) -/

/-- Go conversion `uint64(n)` of an `int64`: reinterpretation modulo `2^64`. -/
def int64ToUint64 (n : Int) : Nat := (n % 2 ^ 64).toNat

/-- Truncation toward zero of a rational. -/
def truncQ (x : ℚ) : Int := if 0 ≤ x then ⌊x⌋ else ⌈x⌉

/-- Go conversion `uint64(x)` of a `float64`: the fraction is discarded; when the truncated
value is not a `uint64` the Go specification leaves the result to the implementation, which is
the parameter `ovf`. -/
def float64ToUint64 (ovf : ℚ → Nat) (x : ℚ) : Nat :=
  if 0 ≤ truncQ x ∧ truncQ x < 2 ^ 64 then (truncQ x).toNat else ovf x % 2 ^ 64

/-- Round a positive natural to 53 significant bits, ties to even. -/
def roundNat53 (n : Nat) : Nat :=
  if n < 2 ^ 53 then n
  else
    let e := Nat.log2 n + 1 - 53
    let q := n / 2 ^ e
    let r := n % 2 ^ e
    let half := 2 ^ (e - 1)
    if r < half then q * 2 ^ e
    else if half < r then (q + 1) * 2 ^ e
    else if q % 2 = 0 then q * 2 ^ e
    else (q + 1) * 2 ^ e

/-- Go conversion `float64(n)` of a 64-bit integer: the nearest `float64`. -/
def intToFloat64 (n : Int) : ℚ :=
  if 0 ≤ n then (roundNat53 n.toNat : ℚ) else -(roundNat53 (-n).toNat : ℚ)

/-- Function `getString`. -/
def getString : Value → String
  | Value.str s => s
  | _ => ""

/-- Function `getUint64`. -/
def getUint64 (ovf : ℚ → Nat) : Value → Nat
  | Value.u64 n => n
  | Value.i64 n => int64ToUint64 n
  | Value.f64 x => float64ToUint64 ovf x
  | _ => 0

/-- Function `getFloat64`. -/
def getFloat64 : Value → ℚ
  | Value.f64 x => x
  | Value.i64 n => intToFloat64 n
  | Value.u64 n => intToFloat64 n
  | _ => 0

/-! ## Collaborator interfaces and the call log -/

/-- Interface `sqlite.ReportRepository`. `SaveSlowQueryReports` receives a slice of pointers, so
besides its error it yields the records as they are after the call (the store fills in
identifiers). -/
structure ReportRepository (σ : Type) where
  GetSlowQueryReports : Int → σ → Except Error (List SlowQueryReport) × σ
  SaveSlowQueryReports : Int → List SlowQueryReport → σ →
    (Option Error × List SlowQueryReport) × σ

/-- Interface `sqlite.ConnectionRepository`, the method the two use cases call. -/
structure ConnectionRepository (σ : Type) where
  FindByID : Int → σ → Except Error (Option CHConnection) × σ

/-- Interface `clickhouse.ClickHouseClient`, the methods the two use cases call. -/
structure ClickHouseClient (σ : Type) where
  ExecuteQueryWithResults : CHConnection → String → σ → Except Error QueryResult × σ
  ExecuteQueryWithStats : CHConnection → String → σ → Except Error QueryStats × σ

/-- What the language runtime supplies to one run: the reading `time.Now()` returns (it is
taken once per run, and a clock reading is never the zero time) and the
implementation-defined part of `uint64(float64)`. -/
structure Runtime where
  now : Time
  floatOverflow : ℚ → Nat
  nowNotZero : now ≠ zeroTime

/-- One invocation of a collaborator method, with its arguments. -/
inductive Call where
  | GetSlowQueryReports (connectionID : Int)
  | SaveSlowQueryReports (connectionID : Int) (reports : List SlowQueryReport)
  | FindByID (id : Int)
  | ExecuteQueryWithResults (conn : CHConnection) (query : String)
  | ExecuteQueryWithStats (conn : CHConnection) (query : String)
  deriving DecidableEq, Repr

/-- The collaborators' state together with the log of calls made so far. -/
structure World (σ : Type) where
  state : σ
  calls : List Call

/-- Invoke a collaborator method: run it on the state and log the call. -/
def World.invoke {σ α : Type} (w : World σ) (c : Call) (f : σ → α × σ) : α × World σ :=
  ((f w.state).1, { state := (f w.state).2, calls := w.calls ++ [c] })

/-- Whether a logged call reads the report cache. -/
def Call.isGetSlowQueryReports : Call → Bool
  | Call.GetSlowQueryReports _ => true
  | _ => false

/-- Whether a logged call is a remote `ExecuteQueryWithResults`. -/
def Call.isExecuteQueryWithResults : Call → Bool
  | Call.ExecuteQueryWithResults _ _ => true
  | _ => false

/-- Struct `reportUsecase`. -/
structure reportUsecase (σ : Type) where
  reportRepo : ReportRepository σ
  connectionRepo : ConnectionRepository σ
  chClient : ClickHouseClient σ

/-- Struct `ConnectionUsecase`, the fields `CompareQueries` uses. -/
structure ConnectionUsecase (σ : Type) where
  repo : ConnectionRepository σ
  chClient : ClickHouseClient σ

/-! ## `GetTopSlowQueries` -/

/-- The fixed aggregation statement sent to ClickHouse. -/
def slowQuerySQL : String :=
  "\nSELECT\n    initial_user                               AS executed_by,\n    any(query)                             AS sample_query,\n    normalizeQuery(query)                      AS query_normalized,\n    count()                                    AS executions,\n    round(avg(query_duration_ms), 2)           AS avg_duration_ms,\n    quantileTDigest(0.95)(query_duration_ms)   AS p95_duration_ms,\n    max(query_duration_ms)                     AS max_duration_ms,\n    sum(read_rows)                             AS total_rows_read,\n    sum(read_bytes)                            AS total_bytes_read\nFROM system.query_log\nWHERE\n    event_time >= now() - INTERVAL 24 HOUR\n    AND type = 'QueryFinish'\n    AND query_kind = 'Select'\n    AND is_initial_query = 1\nGROUP BY\n    executed_by,\n    query_normalized\nORDER BY max_duration_ms DESC\nLIMIT 20;\n"

/-- Step 4 of `GetTopSlowQueries`, the body of the loop: one result row to one report. The
identifier is left at its zero value. -/
def mapRow (ovf : ℚ → Nat) (connectionID : Int) (now : Time) (row : Row) : SlowQueryReport :=
  { ID := 0
    ConnectionID := connectionID
    ExecutedBy := getString (row.get "executed_by")
    SampleQuery := getString (row.get "sample_query")
    QueryNormalized := getString (row.get "query_normalized")
    Executions := getUint64 ovf (row.get "executions")
    AvgDurationMs := getFloat64 (row.get "avg_duration_ms")
    P95DurationMs := getFloat64 (row.get "p95_duration_ms")
    MaxDurationMs := getFloat64 (row.get "max_duration_ms")
    TotalRowsRead := getUint64 ovf (row.get "total_rows_read")
    TotalBytesRead := getUint64 ovf (row.get "total_bytes_read")
    LastRefresh := now
    CreatedAt := now
    UpdatedAt := now }

/-- Result of `GetTopSlowQueries`: `(nil, nil, err)` or `(reports, &t, nil)`. -/
abbrev ReportOutcome := Except Error (List SlowQueryReport × Time)

/-- Steps 2 to 5 of `GetTopSlowQueries`: resolve the connection, run the aggregation, map the
rows, save the snapshot. -/
def reportUsecase.remoteAggregation {σ : Type} (u : reportUsecase σ) (rt : Runtime)
    (connectionID : Int) (w : World σ) : ReportOutcome × World σ :=
  let found := w.invoke (Call.FindByID connectionID) (u.connectionRepo.FindByID connectionID)
  match found.1 with
  | Except.error err => (Except.error err, found.2)
  | Except.ok none => (Except.error "connection not found", found.2)
  | Except.ok (some conn) =>
    let ran := found.2.invoke (Call.ExecuteQueryWithResults conn slowQuerySQL)
      (u.chClient.ExecuteQueryWithResults conn slowQuerySQL)
    match ran.1 with
    | Except.error err => (Except.error err, ran.2)
    | Except.ok res =>
      let now := rt.now
      let reports := res.Rows.map (mapRow rt.floatOverflow connectionID now)
      let saved := ran.2.invoke (Call.SaveSlowQueryReports connectionID reports)
        (u.reportRepo.SaveSlowQueryReports connectionID reports)
      match saved.1.1 with
      | some err => (Except.error err, saved.2)
      | none => (Except.ok (saved.1.2, now), saved.2)

/-- Method `reportUsecase.GetTopSlowQueries`. -/
def reportUsecase.GetTopSlowQueries {σ : Type} (u : reportUsecase σ) (rt : Runtime)
    (connectionID : Int) (forceRefresh : Bool) (w : World σ) : ReportOutcome × World σ :=
  if !forceRefresh then
    let got := w.invoke (Call.GetSlowQueryReports connectionID)
      (u.reportRepo.GetSlowQueryReports connectionID)
    match got.1 with
    | Except.error err => (Except.error err, got.2)
    | Except.ok [] => u.remoteAggregation rt connectionID got.2
    | Except.ok (first :: rest) => (Except.ok (first :: rest, first.CreatedAt), got.2)
  else
    u.remoteAggregation rt connectionID w

/-! ## `CompareQueries` -/

/-- Method `ConnectionUsecase.CompareQueries`; the Go result `(*CompareResult, error)` is
`Except.ok none` for `(nil, nil)`. -/
def ConnectionUsecase.CompareQueries {σ : Type} (u : ConnectionUsecase σ) (id : Int)
    (query1 query2 : String) (w : World σ) : Except Error (Option CompareResult) × World σ :=
  let found := w.invoke (Call.FindByID id) (u.repo.FindByID id)
  match found.1 with
  | Except.error err => (Except.error err, found.2)
  | Except.ok none => (Except.ok none, found.2)
  | Except.ok (some conn) =>
    let first := found.2.invoke (Call.ExecuteQueryWithStats conn query1)
      (u.chClient.ExecuteQueryWithStats conn query1)
    match first.1 with
    | Except.error err => (Except.error err, first.2)
    | Except.ok stats1 =>
      let second := first.2.invoke (Call.ExecuteQueryWithStats conn query2)
        (u.chClient.ExecuteQueryWithStats conn query2)
      match second.1 with
      | Except.error err => (Except.error err, second.2)
      | Except.ok stats2 =>
        (Except.ok (some { Query1Stats := stats1, Query2Stats := stats2 }), second.2)

/-! ## The SQLite report repository (`report_repository.go`)

The table `slow_query_reports` is the list of its rows in insertion order. The calls into the
object-relational mapper are embedded by their SQL meaning: `Where(..).Order(..).Find` selects
the rows of the connection and orders them by `max_duration_ms` descending (rows with equal
keys stay in table order), `Where(..).Delete` removes the rows of the connection, `Create`
appends the records after setting `CreatedAt` and `UpdatedAt` to the mapper's clock reading
where they hold the zero time (the fields are tracked by the mapper's naming convention) and
giving a fresh identifier to each record whose identifier is zero; both are written back into
the records. Whether a step fails is decided by the environment. -/

/-- A data statement sent to the database. -/
inductive Stmt where
  | select (connectionID : Int)
  | delete (connectionID : Int)
  | insert (rows : List SlowQueryReport)
  deriving DecidableEq, Repr

/-- The failures the environment injects: the outcome of `helper.CheckDeadline(ctx)` and of
each database step. -/
structure Faults where
  deadline : Option Error
  find : Option Error
  txBegin : Option Error
  delete : Option Error
  create : Option Error
  txCommit : Option Error
  deriving DecidableEq, Repr

/-- The environment in which nothing fails. -/
def Faults.none : Faults :=
  { deadline := Option.none, find := Option.none, txBegin := Option.none,
    delete := Option.none, create := Option.none, txCommit := Option.none }

/-- State of the local store; `clock` is the reading of the mapper's clock when a statement
runs. -/
structure DB where
  table : List SlowQueryReport
  nextID : Int
  faults : Faults
  stmts : List Stmt
  clock : Time
  deriving DecidableEq, Repr

/-- Function `errors.Wrap(err, message)` of `github.com/pkg/errors`. -/
def Wrap (err : Error) (message : String) : Error := message ++ ": " ++ err

/-- The order `max_duration_ms DESC`. -/
def maxDurationDesc (a b : SlowQueryReport) : Prop := b.MaxDurationMs ≤ a.MaxDurationMs

instance : DecidableRel maxDurationDesc := fun a b =>
  inferInstanceAs (Decidable (b.MaxDurationMs ≤ a.MaxDurationMs))

instance : IsTotal SlowQueryReport maxDurationDesc :=
  ⟨fun a b => le_total b.MaxDurationMs a.MaxDurationMs⟩

instance : IsTrans SlowQueryReport maxDurationDesc :=
  ⟨fun _ _ _ hab hbc => le_trans hbc hab⟩

/-- The rows of one connection: `WHERE connection_id = ?`. -/
def rowsOf (connectionID : Int) (table : List SlowQueryReport) : List SlowQueryReport :=
  table.filter (fun r => r.ConnectionID = connectionID)

/-- The rows of all other connections, what `DELETE .. WHERE connection_id = ?` leaves. -/
def rowsNotOf (connectionID : Int) (table : List SlowQueryReport) : List SlowQueryReport :=
  table.filter (fun r => r.ConnectionID ≠ connectionID)

/-- Timestamps given by `Create`: a zero `CreatedAt` or `UpdatedAt` receives the current
time `cur`. -/
def stampTimes (cur : Time) (r : SlowQueryReport) : SlowQueryReport :=
  { r with
    CreatedAt := if r.CreatedAt = zeroTime then cur else r.CreatedAt
    UpdatedAt := if r.UpdatedAt = zeroTime then cur else r.UpdatedAt }

/-- Identifiers given by `Create`: a record with a zero identifier receives the next one. -/
def assignIDs (next : Int) : List SlowQueryReport → List SlowQueryReport × Int
  | [] => ([], next)
  | r :: rs =>
    if r.ID = 0 then
      (({ r with ID := next }) :: (assignIDs (next + 1) rs).1, (assignIDs (next + 1) rs).2)
    else
      (r :: (assignIDs (max next (r.ID + 1)) rs).1, (assignIDs (max next (r.ID + 1)) rs).2)

/-- Method `reportRepo.GetSlowQueryReports`. -/
def reportRepo.GetSlowQueryReports (connectionID : Int) (db : DB) :
    Except Error (List SlowQueryReport) × DB :=
  match db.faults.deadline with
  | some err => (Except.error (Wrap err "ReportRepository.GetSlowQueryReports"), db)
  | none =>
    match db.faults.find with
    | some err =>
      (Except.error (Wrap err "ReportRepository.GetSlowQueryReports"),
        { db with stmts := db.stmts ++ [Stmt.select connectionID] })
    | none =>
      (Except.ok ((rowsOf connectionID db.table).insertionSort maxDurationDesc),
        { db with stmts := db.stmts ++ [Stmt.select connectionID] })

/-- Method `reportRepo.SaveSlowQueryReports`. A failed transaction is rolled back: the table and
the identifier counter are as before. -/
def reportRepo.SaveSlowQueryReports (connectionID : Int) (reports : List SlowQueryReport)
    (db : DB) : (Option Error × List SlowQueryReport) × DB :=
  match db.faults.deadline with
  | some err => ((some (Wrap err "ReportRepository.SaveSlowQueryReports"), reports), db)
  | none =>
    match db.faults.txBegin with
    | some err => ((some err, reports), db)
    | none =>
      match db.faults.delete with
      | some err =>
        ((some (Wrap err "ReportRepository.SaveSlowQueryReports"), reports),
          { db with stmts := db.stmts ++ [Stmt.delete connectionID] })
      | none =>
        if 0 < reports.length then
          match db.faults.create with
          | some err =>
            ((some (Wrap err "ReportRepository.SaveSlowQueryReports"),
                reports.map (stampTimes db.clock)),
              { db with
                stmts := db.stmts ++
                  [Stmt.delete connectionID, Stmt.insert (reports.map (stampTimes db.clock))] })
          | none =>
            match db.faults.txCommit with
            | some err =>
              ((some err, (assignIDs db.nextID (reports.map (stampTimes db.clock))).1),
                { db with
                  stmts := db.stmts ++
                    [Stmt.delete connectionID,
                      Stmt.insert (reports.map (stampTimes db.clock))] })
            | none =>
              ((Option.none, (assignIDs db.nextID (reports.map (stampTimes db.clock))).1),
                { db with
                  table := rowsNotOf connectionID db.table ++
                    (assignIDs db.nextID (reports.map (stampTimes db.clock))).1
                  nextID := (assignIDs db.nextID (reports.map (stampTimes db.clock))).2
                  stmts := db.stmts ++
                    [Stmt.delete connectionID,
                      Stmt.insert (reports.map (stampTimes db.clock))] })
        else
          match db.faults.txCommit with
          | some err =>
            ((some err, reports), { db with stmts := db.stmts ++ [Stmt.delete connectionID] })
          | none =>
            ((Option.none, reports),
              { db with
                table := rowsNotOf connectionID db.table
                stmts := db.stmts ++ [Stmt.delete connectionID] })

/-- The report repository backed by the local store. -/
def sqliteReportRepository : ReportRepository DB :=
  { GetSlowQueryReports := reportRepo.GetSlowQueryReports
    SaveSlowQueryReports := reportRepo.SaveSlowQueryReports }

/-- A connection repository that answers from a fixed lookup and leaves the report store
alone. -/
def fixedConnectionRepository {σ : Type} (find : Int → Except Error (Option CHConnection)) :
    ConnectionRepository σ :=
  { FindByID := fun id s => (find id, s) }

/-- A ClickHouse client that answers from fixed responses and leaves the report store alone. -/
def fixedClickHouseClient {σ : Type}
    (results : CHConnection → String → Except Error QueryResult)
    (stats : CHConnection → String → Except Error QueryStats) : ClickHouseClient σ :=
  { ExecuteQueryWithResults := fun conn q s => (results conn q, s)
    ExecuteQueryWithStats := fun conn q s => (stats conn q, s) }

/-- The report use case wired to the local store, with a connection lookup and a remote server
that do not touch the store. -/
def sqliteReportUsecase (find : Int → Except Error (Option CHConnection))
    (results : CHConnection → String → Except Error QueryResult) : reportUsecase DB :=
  { reportRepo := sqliteReportRepository
    connectionRepo := fixedConnectionRepository find
    chClient := fixedClickHouseClient results (fun _ _ => Except.error "not used") }

/-! ## Concrete scenarios -/

/-- The registered connection of the scenarios, identifier 7. -/
def conn7 : CHConnection :=
  { ID := 7, Host := "localhost", Port := 9000, Protocol := "native", Database := "default",
    ServerInfo := "", CreatedAt := 0, UpdatedAt := 0 }

/-- A lookup that knows connection 7 only. -/
def findConn7 (id : Int) : Except Error (Option CHConnection) :=
  if id = 7 then Except.ok (some conn7) else Except.ok none

/-- A stored report of connection 7 with the given identifier, maximum duration and creation
time. -/
def seededReport (id : Int) (maxMs : ℚ) (created : Time) : SlowQueryReport :=
  { ID := id, ConnectionID := 7, ExecutedBy := "alice", SampleQuery := "SELECT 1",
    QueryNormalized := "SELECT ?", Executions := 1, AvgDurationMs := maxMs,
    P95DurationMs := maxMs, MaxDurationMs := maxMs, TotalRowsRead := 0, TotalBytesRead := 0,
    LastRefresh := created, CreatedAt := created, UpdatedAt := created }

/-- The store pre-seeded with two reports for connection 7 (900 ms and 750 ms, both created at
instant 100); nothing fails. -/
def seededDB : DB :=
  { table := [seededReport 1 900 100, seededReport 2 750 100], nextID := 3,
    faults := Faults.none, stmts := [], clock := 1001 }

/-- A store with no rows at all; nothing fails. -/
def emptyDB : DB :=
  { table := [], nextID := 1, faults := Faults.none, stmts := [], clock := 1001 }

/-- A runtime whose clock reads 1000. -/
def runtime1000 : Runtime :=
  { now := 1000, floatOverflow := fun _ => 0, nowNotZero := by decide }

/-- A remote server that fails every statement. -/
def remoteDown (_ : CHConnection) (_ : String) : Except Error QueryResult :=
  Except.error "remote execution failed"

/-- A remote result row of user `alice` with the given normalized query and maximum
duration. -/
def remoteRow (normalized : String) (maxMs : ℚ) : Row :=
  [("executed_by", Value.str "alice"), ("sample_query", Value.str normalized),
    ("query_normalized", Value.str normalized), ("executions", Value.u64 3),
    ("avg_duration_ms", Value.f64 maxMs), ("p95_duration_ms", Value.f64 maxMs),
    ("max_duration_ms", Value.f64 maxMs), ("total_rows_read", Value.u64 10),
    ("total_bytes_read", Value.u64 80)]

/-- A remote server that answers every statement with the given rows. -/
def remoteReturning (rows : List Row) (_ : CHConnection) (_ : String) :
    Except Error QueryResult :=
  Except.ok { Columns := [], Rows := rows }

/-- Scenario 3: the remote rows arrive with maxima 120.5, 3400.0, 800.0, in that order. -/
def scenario3Rows : List Row :=
  [remoteRow "SELECT a" (241 / 2), remoteRow "SELECT b" 3400, remoteRow "SELECT c" 800]

/-- Two remote rows with the same maximum 500, the normalized query `SELECT b` before
`SELECT a`. -/
def tiedRows : List Row := [remoteRow "SELECT b" 500, remoteRow "SELECT a" 500]

/-- The reports scenario 3 produces at clock reading 1000 on the seeded store: the three rows
in arrival order, with the identifiers 3, 4, 5. -/
def scenario3Reports : List SlowQueryReport :=
  [{ mapRow runtime1000.floatOverflow 7 1000 (remoteRow "SELECT a" (241 / 2)) with ID := 3 },
    { mapRow runtime1000.floatOverflow 7 1000 (remoteRow "SELECT b" 3400) with ID := 4 },
    { mapRow runtime1000.floatOverflow 7 1000 (remoteRow "SELECT c" 800) with ID := 5 }]

/-- The reports produced from `tiedRows` at clock reading 1000 on the seeded store. -/
def tiedReports : List SlowQueryReport :=
  [{ mapRow runtime1000.floatOverflow 7 1000 (remoteRow "SELECT b" 500) with ID := 3 },
    { mapRow runtime1000.floatOverflow 7 1000 (remoteRow "SELECT a" 500) with ID := 4 }]

/-- Statistics with the given elapsed time and nothing else. -/
def statsOf (elapsed : Nat) : QueryStats :=
  { ElapsedMs := elapsed, RowsRead := 0, BytesRead := 0, MemoryUsage := 0, Result := none }

/-- A remote server on which `SELECT 1` takes 11 ms, `SELECT 2` takes 22 ms and every other
statement fails. -/
def remoteStats (_ : CHConnection) (q : String) : Except Error QueryStats :=
  if q = "SELECT 1" then Except.ok (statsOf 11)
  else if q = "SELECT 2" then Except.ok (statsOf 22)
  else Except.error "syntax error"

/-- The connection use case over a store-less state, with connection 7 registered. -/
def compareUsecase : ConnectionUsecase Unit :=
  { repo := fixedConnectionRepository findConn7
    chClient := fixedClickHouseClient remoteDown remoteStats }

/-- The world with no state and an empty call log. -/
def emptyWorld : World Unit := { state := (), calls := [] }

/-- The seeded store on which every lookup fails with a disk error. -/
def brokenDB : DB :=
  { seededDB with faults := { Faults.none with find := some "disk I/O error" } }

/-- The seeded store on which every delete fails because the database is locked. -/
def lockedDB : DB :=
  { seededDB with faults := { Faults.none with delete := some "database is locked" } }

/-- A record with its identifier blanked: what two records agree on when they are equal up to
the identifier the store assigned. -/
def eraseID (r : SlowQueryReport) : SlowQueryReport := { r with ID := 0 }

/-- A store holding the two seeded rows of connection 7 around one row of connection 8. -/
def mixedDB : DB :=
  { table := [seededReport 1 900 100, { seededReport 5 300 50 with ConnectionID := 8 },
      seededReport 2 750 100],
    nextID := 10, faults := Faults.none, stmts := [], clock := 1001 }

/-! ## Theorems -/

/-- The call log only grows by what `remoteAggregation` itself invokes: running from a log
`calls` is running from the empty log and prepending `calls`. -/
theorem remoteAggregation_log {σ : Type} (u : reportUsecase σ) (rt : Runtime) (c : Int)
    (s : σ) (calls : List Call) :
    u.remoteAggregation rt c { state := s, calls := calls } =
      ((u.remoteAggregation rt c { state := s, calls := [] }).1,
        { state := (u.remoteAggregation rt c { state := s, calls := [] }).2.state,
          calls := calls ++ (u.remoteAggregation rt c { state := s, calls := [] }).2.calls }) := by
  simp only [reportUsecase.remoteAggregation, World.invoke]
  cases hf : (u.connectionRepo.FindByID c s).1 with
  | error e => simp
  | ok oc =>
    cases oc with
    | none => simp
    | some conn =>
      simp only []
      cases hr : (u.chClient.ExecuteQueryWithResults conn slowQuerySQL
          (u.connectionRepo.FindByID c s).2).1 with
      | error e => simp
      | ok res =>
        simp only []
        cases hs : (u.reportRepo.SaveSlowQueryReports c
            (List.map (mapRow rt.floatOverflow c rt.now) res.Rows)
            (u.chClient.ExecuteQueryWithResults conn slowQuerySQL
              (u.connectionRepo.FindByID c s).2).2).1.1 with
        | none => simp
        | some e => simp

/-- Giving identifiers changes no other field: any projection that ignores `ID` sees the
records unchanged and in the same order. -/
theorem assignIDs_map {α : Type} (f : SlowQueryReport → α)
    (hf : ∀ (r : SlowQueryReport) (id : Int), f { r with ID := id } = f r)
    (reports : List SlowQueryReport) (next : Int) :
    (assignIDs next reports).1.map f = reports.map f := by
  induction reports generalizing next with
  | nil => rfl
  | cons r rs ih =>
    unfold assignIDs
    split
    · simp [hf, ih]
    · simp [ih]

/-- The store lookup, when nothing fails, yields the rows of the connection ordered by
`max_duration_ms` descending. -/
theorem sqlite_get_ok (c : Int) (db : DB) (xs : List SlowQueryReport)
    (h : (reportRepo.GetSlowQueryReports c db).1 = Except.ok xs) :
    xs = (rowsOf c db.table).insertionSort maxDurationDesc ∧
      (reportRepo.GetSlowQueryReports c db).2 =
        { db with stmts := db.stmts ++ [Stmt.select c] } := by
  unfold reportRepo.GetSlowQueryReports at h ⊢
  cases hd : db.faults.deadline with
  | some e => simp [hd] at h
  | none =>
    cases hf : db.faults.find with
    | some e => simp [hd, hf] at h
    | none =>
      simp only [hd, hf, Except.ok.injEq] at h ⊢
      exact ⟨h.symm, trivial⟩

/-- A record built by `mapRow` at a clock reading keeps its timestamps when saved. -/
theorem stampTimes_mapRow (ovf : ℚ → Nat) (c : Int) (now cur : Time) (hnow : now ≠ zeroTime)
    (rows : List Row) :
    (rows.map (mapRow ovf c now)).map (stampTimes cur) = rows.map (mapRow ovf c now) := by
  rw [List.map_map]
  refine List.map_congr_left (fun row _ => ?_)
  simp [stampTimes, mapRow, hnow]

/-- A successful save returns the records with their timestamps stamped and their identifiers
assigned. -/
theorem sqlite_save_ok (c : Int) (reports : List SlowQueryReport) (db : DB)
    (h : (reportRepo.SaveSlowQueryReports c reports db).1.1 = none) :
    (reportRepo.SaveSlowQueryReports c reports db).1.2 =
      (assignIDs db.nextID (reports.map (stampTimes db.clock))).1 := by
  unfold reportRepo.SaveSlowQueryReports at h ⊢
  cases hd : db.faults.deadline with
  | some e => simp [hd] at h
  | none =>
    cases hb : db.faults.txBegin with
    | some e => simp [hd, hb] at h
    | none =>
      cases hx : db.faults.delete with
      | some e => simp [hd, hb, hx] at h
      | none =>
        cases reports with
        | nil =>
          cases hc : db.faults.txCommit with
          | some e => simp [hd, hb, hx, hc] at h
          | none => simp [hd, hb, hx, hc, assignIDs]
        | cons r rs =>
          cases hi : db.faults.create with
          | some e => simp [hd, hb, hx, hi] at h
          | none =>
            cases hc : db.faults.txCommit with
            | some e => simp [hd, hb, hx, hi, hc] at h
            | none => simp [hd, hb, hx, hi, hc]

/-- A successful remote aggregation against the local store returns, with the captured clock
reading, the records mapped from the remote rows in the order of those rows, with identifiers
assigned. -/
theorem sqlite_remoteAggregation_ok (find : Int → Except Error (Option CHConnection))
    (results : CHConnection → String → Except Error QueryResult) (rt : Runtime) (c : Int)
    (w : World DB) (reports : List SlowQueryReport) (t : Time)
    (h : ((sqliteReportUsecase find results).remoteAggregation rt c w).1 =
      Except.ok (reports, t)) :
    ∃ (conn : CHConnection) (res : QueryResult),
      find c = Except.ok (some conn) ∧ results conn slowQuerySQL = Except.ok res ∧
      t = rt.now ∧
      reports =
        (assignIDs w.state.nextID (res.Rows.map (mapRow rt.floatOverflow c rt.now))).1 := by
  simp only [reportUsecase.remoteAggregation, World.invoke, sqliteReportUsecase,
    fixedConnectionRepository, fixedClickHouseClient, sqliteReportRepository] at h
  cases hfind : find c with
  | error e => simp [hfind] at h
  | ok oc =>
    cases oc with
    | none => simp [hfind] at h
    | some conn =>
      cases hres : results conn slowQuerySQL with
      | error e => simp [hfind, hres] at h
      | ok res =>
        refine ⟨conn, res, rfl, hres, ?_⟩
        simp only [hfind, hres] at h
        cases hs : (reportRepo.SaveSlowQueryReports c
            (res.Rows.map (mapRow rt.floatOverflow c rt.now)) w.state).1.1 with
        | some e => simp [hs] at h
        | none =>
          simp only [hs, Except.ok.injEq, Prod.mk.injEq] at h
          exact ⟨h.2.symm, by
            rw [← h.1, sqlite_save_ok _ _ _ hs,
              stampTimes_mapRow _ _ _ _ rt.nowNotZero]⟩

/-- Every successful `GetTopSlowQueries` against the local store is either a cache hit, whose
result is the store lookup (non-empty, ordered by `max_duration_ms` descending), or a remote
aggregation, whose result is the mapped remote rows in their order. -/
theorem sqlite_GetTopSlowQueries_ok (find : Int → Except Error (Option CHConnection))
    (results : CHConnection → String → Except Error QueryResult) (rt : Runtime) (c : Int)
    (forceRefresh : Bool) (w : World DB) (reports : List SlowQueryReport) (t : Time)
    (h : ((sqliteReportUsecase find results).GetTopSlowQueries rt c forceRefresh w).1 =
      Except.ok (reports, t)) :
    (forceRefresh = false ∧ reports ≠ [] ∧
        reports = (rowsOf c w.state.table).insertionSort maxDurationDesc) ∨
      ∃ (conn : CHConnection) (res : QueryResult),
        find c = Except.ok (some conn) ∧ results conn slowQuerySQL = Except.ok res ∧
        t = rt.now ∧
        reports =
          (assignIDs w.state.nextID (res.Rows.map (mapRow rt.floatOverflow c rt.now))).1 := by
  cases forceRefresh with
  | true =>
    right
    have h2 : ((sqliteReportUsecase find results).remoteAggregation rt c w).1 =
        Except.ok (reports, t) := by
      simpa [reportUsecase.GetTopSlowQueries] using h
    exact sqlite_remoteAggregation_ok find results rt c w reports t h2
  | false =>
    cases hg : (reportRepo.GetSlowQueryReports c w.state).1 with
    | error e =>
      simp [reportUsecase.GetTopSlowQueries, World.invoke, sqliteReportUsecase,
        sqliteReportRepository, hg] at h
    | ok xs =>
      have hx := sqlite_get_ok c w.state xs hg
      cases xs with
      | nil =>
        right
        have h2 : ((sqliteReportUsecase find results).remoteAggregation rt c
            { state := (reportRepo.GetSlowQueryReports c w.state).2,
              calls := w.calls ++ [Call.GetSlowQueryReports c] }).1 =
            Except.ok (reports, t) := by
          simpa [reportUsecase.GetTopSlowQueries, World.invoke, sqliteReportUsecase,
            sqliteReportRepository, hg] using h
        have h3 := sqlite_remoteAggregation_ok find results rt c _ reports t h2
        simpa [hx.2] using h3
      | cons first rest =>
        left
        have h2 : first :: rest = reports := by
          simp [reportUsecase.GetTopSlowQueries, World.invoke, sqliteReportUsecase,
            sqliteReportRepository, hg] at h
          exact h.1
        subst h2
        exact ⟨rfl, List.cons_ne_nil _ _, hx.1⟩

/-- C1 (cache hit): when `GetSlowQueryReports c` succeeds with a non-empty sequence `xs`, the
non-forced call succeeds with exactly `xs` and the `CreatedAt` of its first element, and the
only collaborator call made is that one `GetSlowQueryReports c`: no `FindByID`, no ClickHouse
call, no `SaveSlowQueryReports`. -/
theorem C1_cache_hit {σ : Type} (u : reportUsecase σ) (rt : Runtime) (c : Int) (w : World σ)
    (first : SlowQueryReport) (rest : List SlowQueryReport) (s : σ)
    (hget : u.reportRepo.GetSlowQueryReports c w.state = (Except.ok (first :: rest), s)) :
    u.GetTopSlowQueries rt c false w =
      (Except.ok (first :: rest, first.CreatedAt),
        { state := s, calls := w.calls ++ [Call.GetSlowQueryReports c] }) := by
  simp [reportUsecase.GetTopSlowQueries, World.invoke, hget]

/-- Witness of C1: scenario 1, two seeded rows (900 ms, 750 ms, created at 100) for
connection 7. -/
theorem C1_cache_hit_witness :
    (sqliteReportUsecase findConn7 remoteDown).GetTopSlowQueries runtime1000 7 false
        { state := seededDB, calls := [] } =
      (Except.ok ([seededReport 1 900 100, seededReport 2 750 100], 100),
        { state := { seededDB with stmts := [Stmt.select 7] },
          calls := [Call.GetSlowQueryReports 7] }) :=
  C1_cache_hit (sqliteReportUsecase findConn7 remoteDown) runtime1000 7
    { state := seededDB, calls := [] } (seededReport 1 900 100) [seededReport 2 750 100]
    { seededDB with stmts := [Stmt.select 7] } (by rfl)

/-- C2, as stated, fails: in scenario 3 the remote rows arrive with maxima 120.5, 3400.0,
800.0 and the forced refresh returns the reports in that same order, which is not
non-increasing in `MaxDurationMs`. -/
theorem C2_counterexample :
    ((sqliteReportUsecase findConn7 (remoteReturning scenario3Rows)).GetTopSlowQueries
        runtime1000 7 true { state := seededDB, calls := [] }).1 =
      Except.ok (scenario3Reports, 1000) ∧
      scenario3Reports.map (fun r => r.MaxDurationMs) = [241 / 2, 3400, 800] ∧
      ¬ List.Sorted (fun a b : ℚ => a ≥ b) (scenario3Reports.map (fun r => r.MaxDurationMs)) := by
  have hmax : scenario3Reports.map (fun r => r.MaxDurationMs) = [241 / 2, 3400, 800] := by
    rfl
  refine ⟨by rfl, hmax, ?_⟩
  rw [hmax]
  intro hsorted
  have h12 : ((241 : ℚ) / 2) ≥ 3400 := (List.pairwise_cons.mp hsorted).1 3400 (by simp)
  norm_num at h12

/-- C2 (amended): every successful `GetTopSlowQueries` against the local store returns either
the cached rows, which are non-increasing in `MaxDurationMs`, or, on the refresh path, reports
whose `MaxDurationMs` values are the coerced `max_duration_ms` of the remote rows in the order
the remote client returned them; the refreshed result is therefore non-increasing exactly when
the remote rows are. -/
theorem C2_result_order (find : Int → Except Error (Option CHConnection))
    (results : CHConnection → String → Except Error QueryResult) (rt : Runtime) (c : Int)
    (forceRefresh : Bool) (w : World DB) (reports : List SlowQueryReport) (t : Time)
    (h : ((sqliteReportUsecase find results).GetTopSlowQueries rt c forceRefresh w).1 =
      Except.ok (reports, t)) :
    (forceRefresh = false ∧ reports ≠ [] ∧
        List.Sorted (fun a b : ℚ => a ≥ b) (reports.map (fun r => r.MaxDurationMs))) ∨
      ∃ (conn : CHConnection) (res : QueryResult),
        find c = Except.ok (some conn) ∧ results conn slowQuerySQL = Except.ok res ∧
        reports.map (fun r => r.MaxDurationMs) =
          res.Rows.map (fun row => getFloat64 (row.get "max_duration_ms")) ∧
        (List.Sorted (fun a b : ℚ => a ≥ b) (reports.map (fun r => r.MaxDurationMs)) ↔
          List.Sorted (fun a b : ℚ => a ≥ b)
            (res.Rows.map (fun row => getFloat64 (row.get "max_duration_ms")))) := by
  rcases sqlite_GetTopSlowQueries_ok find results rt c forceRefresh w reports t h with
    ⟨hf, hne, hsort⟩ | ⟨conn, res, hfind, hres, _, hrep⟩
  · left
    refine ⟨hf, hne, ?_⟩
    have hs : List.Sorted maxDurationDesc reports := by
      rw [hsort]
      exact List.sorted_insertionSort maxDurationDesc _
    exact List.pairwise_map.mpr hs
  · right
    have hmap : reports.map (fun r => r.MaxDurationMs) =
        res.Rows.map (fun row => getFloat64 (row.get "max_duration_ms")) := by
      rw [hrep, assignIDs_map (fun r => r.MaxDurationMs) (fun _ _ => rfl), List.map_map]
      rfl
    exact ⟨conn, res, hfind, hres, hmap, by rw [hmap]⟩

/-- Witness of the amended C2: the cache hit of scenario 1, whose two rows (900 ms, 750 ms)
come back non-increasing. -/
theorem C2_result_order_witness :
    (false = false ∧ [seededReport 1 900 100, seededReport 2 750 100] ≠ [] ∧
        List.Sorted (fun a b : ℚ => a ≥ b)
          ([seededReport 1 900 100, seededReport 2 750 100].map
            (fun r => r.MaxDurationMs))) ∨
      ∃ (conn : CHConnection) (res : QueryResult),
        findConn7 7 = Except.ok (some conn) ∧ remoteDown conn slowQuerySQL = Except.ok res ∧
        [seededReport 1 900 100, seededReport 2 750 100].map (fun r => r.MaxDurationMs) =
          res.Rows.map (fun row => getFloat64 (row.get "max_duration_ms")) ∧
        (List.Sorted (fun a b : ℚ => a ≥ b)
            ([seededReport 1 900 100, seededReport 2 750 100].map
              (fun r => r.MaxDurationMs)) ↔
          List.Sorted (fun a b : ℚ => a ≥ b)
            (res.Rows.map (fun row => getFloat64 (row.get "max_duration_ms")))) :=
  C2_result_order findConn7 remoteDown runtime1000 7 false
    { state := seededDB, calls := [] } [seededReport 1 900 100, seededReport 2 750 100] 100
    (by rfl)

/-- C3, as stated, fails: two remote rows tie on the maximum 500 and arrive with
`SELECT b` before `SELECT a`; the forced refresh returns them in that order, so the tie is not
in ascending order of `QueryNormalized`. -/
theorem C3_counterexample :
    ((sqliteReportUsecase findConn7 (remoteReturning tiedRows)).GetTopSlowQueries
        runtime1000 7 true { state := seededDB, calls := [] }).1 =
      Except.ok (tiedReports, 1000) ∧
      tiedReports.map (fun r => (r.MaxDurationMs, r.QueryNormalized)) =
        [(500, "SELECT b"), (500, "SELECT a")] ∧
      ¬ List.Pairwise
        (fun a b : SlowQueryReport =>
          a.MaxDurationMs = b.MaxDurationMs → a.QueryNormalized ≤ b.QueryNormalized)
        tiedReports := by
  refine ⟨by rfl, by rfl, ?_⟩
  intro hpair
  have hle : ("SELECT b" : String) ≤ "SELECT a" :=
    (List.pairwise_cons.mp hpair).1
      ({ mapRow runtime1000.floatOverflow 7 1000 (remoteRow "SELECT a" 500) with ID := 4 })
      (by simp [tiedReports]) (by rfl)
  have hnot : ¬ ("SELECT b" : String) ≤ "SELECT a" := by
    rw [String.le_iff_toList_le]
    decide
  exact hnot hle

/-- C3 (amended): a successful `GetTopSlowQueries` against the local store applies no
tie-break on `QueryNormalized`. On the cache-hit path the result is a rearrangement of the
stored rows of the connection that is non-increasing in `MaxDurationMs`; on the refresh path
the i-th report carries the `max_duration_ms` and `query_normalized` of the i-th remote row,
so reports (tied or not) keep the order in which the remote client returned them. -/
theorem C3_no_tie_break (find : Int → Except Error (Option CHConnection))
    (results : CHConnection → String → Except Error QueryResult) (rt : Runtime) (c : Int)
    (forceRefresh : Bool) (w : World DB) (reports : List SlowQueryReport) (t : Time)
    (h : ((sqliteReportUsecase find results).GetTopSlowQueries rt c forceRefresh w).1 =
      Except.ok (reports, t)) :
    (forceRefresh = false ∧ List.Perm reports (rowsOf c w.state.table) ∧
        List.Sorted maxDurationDesc reports) ∨
      ∃ (conn : CHConnection) (res : QueryResult),
        find c = Except.ok (some conn) ∧ results conn slowQuerySQL = Except.ok res ∧
        reports.map (fun r => (r.MaxDurationMs, r.QueryNormalized)) =
          res.Rows.map (fun row =>
            (getFloat64 (row.get "max_duration_ms"), getString (row.get "query_normalized"))) := by
  rcases sqlite_GetTopSlowQueries_ok find results rt c forceRefresh w reports t h with
    ⟨hf, _, hsort⟩ | ⟨conn, res, hfind, hres, _, hrep⟩
  · left
    rw [hsort]
    exact ⟨hf, List.perm_insertionSort maxDurationDesc _,
      List.sorted_insertionSort maxDurationDesc _⟩
  · right
    refine ⟨conn, res, hfind, hres, ?_⟩
    rw [hrep, assignIDs_map (fun r => (r.MaxDurationMs, r.QueryNormalized)) (fun _ _ => rfl),
      List.map_map]
    rfl

/-- Witness of the amended C3: the tied remote rows keep their order. -/
theorem C3_no_tie_break_witness :
    (true = false ∧ List.Perm tiedReports (rowsOf 7 seededDB.table) ∧
        List.Sorted maxDurationDesc tiedReports) ∨
      ∃ (conn : CHConnection) (res : QueryResult),
        findConn7 7 = Except.ok (some conn) ∧
        remoteReturning tiedRows conn slowQuerySQL = Except.ok res ∧
        tiedReports.map (fun r => (r.MaxDurationMs, r.QueryNormalized)) =
          res.Rows.map (fun row =>
            (getFloat64 (row.get "max_duration_ms"), getString (row.get "query_normalized"))) :=
  C3_no_tie_break findConn7 (remoteReturning tiedRows) runtime1000 7 true
    { state := seededDB, calls := [] } tiedReports 1000 (by rfl)

/-- C4 (missing connection): whenever the call reaches connection resolution, either because
the refresh is forced (`pre = []`) or because the cache lookup succeeded with no rows
(`pre = [GetSlowQueryReports c]`), and `FindByID c` yields no connection and no error, the call
fails with "connection not found", carrying no reports and no timestamp, and the log ends with
`FindByID c`: neither the ClickHouse client nor `SaveSlowQueryReports` is invoked. -/
theorem C4_connection_not_found {σ : Type} (u : reportUsecase σ) (rt : Runtime) (c : Int)
    (forceRefresh : Bool) (w : World σ) (s0 s1 : σ) (pre : List Call)
    (hreach : (forceRefresh = true ∧ s0 = w.state ∧ pre = []) ∨
      (forceRefresh = false ∧
        u.reportRepo.GetSlowQueryReports c w.state = (Except.ok [], s0) ∧
        pre = [Call.GetSlowQueryReports c]))
    (hfind : u.connectionRepo.FindByID c s0 = (Except.ok none, s1)) :
    u.GetTopSlowQueries rt c forceRefresh w =
      (Except.error "connection not found",
        { state := s1, calls := w.calls ++ pre ++ [Call.FindByID c] }) := by
  rcases hreach with ⟨hf, hs, hp⟩ | ⟨hf, hg, hp⟩
  · subst hf hs hp
    simp [reportUsecase.GetTopSlowQueries, reportUsecase.remoteAggregation, World.invoke, hfind]
  · subst hf hp
    simp [reportUsecase.GetTopSlowQueries, reportUsecase.remoteAggregation, World.invoke, hg,
      hfind]

/-- Witness of C4: scenario 5, a forced refresh for the unknown connection 999. -/
theorem C4_connection_not_found_witness :
    (sqliteReportUsecase findConn7 remoteDown).GetTopSlowQueries runtime1000 999 true
        { state := seededDB, calls := [] } =
      (Except.error "connection not found",
        { state := seededDB, calls := [] ++ [] ++ [Call.FindByID 999] }) :=
  C4_connection_not_found (sqliteReportUsecase findConn7 remoteDown) runtime1000 999 true
    { state := seededDB, calls := [] } seededDB seededDB []
    (Or.inl ⟨rfl, rfl, rfl⟩) (by rfl)

/-- C5, as stated, fails: for the unknown connection 999 `CompareQueries` returns the nil
result with a nil error, not a connection-not-found error. -/
theorem C5_counterexample :
    (compareUsecase.CompareQueries 999 "SELECT 1" "SELECT 2" emptyWorld).1 = Except.ok none ∧
      ∀ e : Error,
        (compareUsecase.CompareQueries 999 "SELECT 1" "SELECT 2" emptyWorld).1 ≠
          Except.error e := by
  refine ⟨by rfl, fun e h => ?_⟩
  have h2 : (compareUsecase.CompareQueries 999 "SELECT 1" "SELECT 2" emptyWorld).1 =
      Except.ok none := by rfl
  rw [h2] at h
  cases h

/-- C5 (amended): when `FindByID id` yields no connection and no error, `CompareQueries`
returns no result and no error (the Go pair `(nil, nil)`), and the only collaborator call is
that `FindByID id`: the ClickHouse client is not invoked. -/
theorem C5_compare_missing_connection {σ : Type} (u : ConnectionUsecase σ) (id : Int)
    (query1 query2 : String) (w : World σ) (s1 : σ)
    (hfind : u.repo.FindByID id w.state = (Except.ok none, s1)) :
    u.CompareQueries id query1 query2 w =
      (Except.ok none, { state := s1, calls := w.calls ++ [Call.FindByID id] }) := by
  simp [ConnectionUsecase.CompareQueries, World.invoke, hfind]

/-- Witness of the amended C5 at the unknown connection 999. -/
theorem C5_compare_missing_connection_witness :
    compareUsecase.CompareQueries 999 "SELECT 1" "SELECT 2" emptyWorld =
      (Except.ok none, { state := (), calls := [] ++ [Call.FindByID 999] }) :=
  C5_compare_missing_connection compareUsecase 999 "SELECT 1" "SELECT 2" emptyWorld ()
    (by rfl)

/-- C6 (paired execution): for an existing connection, when both executions succeed,
`CompareQueries` calls `ExecuteQueryWithStats` exactly twice on that connection, `query1`
first and `query2` second (the second running on the state the first left), and returns the
pair whose `Query1Stats` is the first answer and whose `Query2Stats` is the second. -/
theorem C6_compare_both_succeed {σ : Type} (u : ConnectionUsecase σ) (id : Int)
    (query1 query2 : String) (w : World σ) (conn : CHConnection) (s1 s2 s3 : σ)
    (stats1 stats2 : QueryStats)
    (hfind : u.repo.FindByID id w.state = (Except.ok (some conn), s1))
    (h1 : u.chClient.ExecuteQueryWithStats conn query1 s1 = (Except.ok stats1, s2))
    (h2 : u.chClient.ExecuteQueryWithStats conn query2 s2 = (Except.ok stats2, s3)) :
    u.CompareQueries id query1 query2 w =
      (Except.ok (some { Query1Stats := stats1, Query2Stats := stats2 }),
        { state := s3,
          calls := w.calls ++ [Call.FindByID id, Call.ExecuteQueryWithStats conn query1,
            Call.ExecuteQueryWithStats conn query2] }) := by
  simp [ConnectionUsecase.CompareQueries, World.invoke, hfind, h1, h2]

/-- Witness of C6: scenario 6, `SELECT 1` against `SELECT 2` on connection 7. -/
theorem C6_compare_both_succeed_witness :
    compareUsecase.CompareQueries 7 "SELECT 1" "SELECT 2" emptyWorld =
      (Except.ok (some { Query1Stats := statsOf 11, Query2Stats := statsOf 22 }),
        { state := (),
          calls := [] ++ [Call.FindByID 7, Call.ExecuteQueryWithStats conn7 "SELECT 1",
            Call.ExecuteQueryWithStats conn7 "SELECT 2"] }) :=
  C6_compare_both_succeed compareUsecase 7 "SELECT 1" "SELECT 2" emptyWorld conn7 () () ()
    (statsOf 11) (statsOf 22) (by rfl) (by rfl) (by rfl)

/-- C7 (no partial result): for an existing connection, if the first execution fails then
`CompareQueries` returns that error, no `CompareResult`, and the client has been called
exactly once (with `query1`; `query2` is never executed); if the first succeeds and the second
fails, `CompareQueries` returns the second error and no `CompareResult`. -/
theorem C7_compare_failure {σ : Type} (u : ConnectionUsecase σ) (id : Int)
    (query1 query2 : String) (w : World σ) (conn : CHConnection) (s1 : σ)
    (hfind : u.repo.FindByID id w.state = (Except.ok (some conn), s1)) :
    (∀ (e : Error) (s2 : σ),
        u.chClient.ExecuteQueryWithStats conn query1 s1 = (Except.error e, s2) →
        u.CompareQueries id query1 query2 w =
          (Except.error e,
            { state := s2,
              calls := w.calls ++
                [Call.FindByID id, Call.ExecuteQueryWithStats conn query1] })) ∧
      (∀ (stats1 : QueryStats) (e : Error) (s2 s3 : σ),
        u.chClient.ExecuteQueryWithStats conn query1 s1 = (Except.ok stats1, s2) →
        u.chClient.ExecuteQueryWithStats conn query2 s2 = (Except.error e, s3) →
        u.CompareQueries id query1 query2 w =
          (Except.error e,
            { state := s3,
              calls := w.calls ++
                [Call.FindByID id, Call.ExecuteQueryWithStats conn query1,
                  Call.ExecuteQueryWithStats conn query2] })) := by
  constructor
  · intro e s2 h1
    simp [ConnectionUsecase.CompareQueries, World.invoke, hfind, h1]
  · intro stats1 e s2 s3 h1 h2
    simp [ConnectionUsecase.CompareQueries, World.invoke, hfind, h1, h2]

/-- Witness of C7 on connection 7: a failing first statement stops after one client call, a
failing second statement yields its error. -/
theorem C7_compare_failure_witness :
    compareUsecase.CompareQueries 7 "SELEC" "SELECT 2" emptyWorld =
        (Except.error "syntax error",
          { state := (),
            calls := [] ++ [Call.FindByID 7, Call.ExecuteQueryWithStats conn7 "SELEC"] }) ∧
      compareUsecase.CompareQueries 7 "SELECT 1" "SELEC" emptyWorld =
        (Except.error "syntax error",
          { state := (),
            calls := [] ++ [Call.FindByID 7, Call.ExecuteQueryWithStats conn7 "SELECT 1",
              Call.ExecuteQueryWithStats conn7 "SELEC"] }) :=
  ⟨(C7_compare_failure compareUsecase 7 "SELEC" "SELECT 2" emptyWorld conn7 () (by rfl)).1
      "syntax error" () (by rfl),
    (C7_compare_failure compareUsecase 7 "SELECT 1" "SELEC" emptyWorld conn7 () (by rfl)).2
      (statsOf 11) "syntax error" () () (by rfl) (by rfl)⟩

/-- C8 (forced refresh bypasses the cache). First part, for every implementation and state
of the collaborators: for an existing connection the forced call logs no
`GetSlowQueryReports`, logs exactly one `ExecuteQueryWithResults` (on the resolved connection,
with the fixed statement), and a successful result consists of the records mapped from the
remote rows, as `SaveSlowQueryReports` left them. Second part, against the local store,
whatever rows it holds: the reports of a successful forced call are, one per remote row and
in the order of the remote rows, the requested connection, the coerced columns of that row
and the clock reading of the run in the three timestamps; nothing in them comes from the
stored rows. -/
theorem C8_forced_refresh :
    (∀ (σ : Type) (u : reportUsecase σ) (rt : Runtime) (c : Int) (w : World σ)
        (conn : CHConnection) (s1 : σ),
        u.connectionRepo.FindByID c w.state = (Except.ok (some conn), s1) →
        ∃ new : List Call,
          (u.GetTopSlowQueries rt c true w).2.calls = w.calls ++ new ∧
          (∀ call ∈ new, call.isGetSlowQueryReports = false) ∧
          new.countP Call.isExecuteQueryWithResults = 1 ∧
          Call.ExecuteQueryWithResults conn slowQuerySQL ∈ new ∧
          ∀ (reports : List SlowQueryReport) (t : Time),
            (u.GetTopSlowQueries rt c true w).1 = Except.ok (reports, t) →
            ∃ (res : QueryResult) (s2 : σ),
              u.chClient.ExecuteQueryWithResults conn slowQuerySQL s1 = (Except.ok res, s2) ∧
              reports = (u.reportRepo.SaveSlowQueryReports c
                (res.Rows.map (mapRow rt.floatOverflow c rt.now)) s2).1.2) ∧
      (∀ (find : Int → Except Error (Option CHConnection))
          (results : CHConnection → String → Except Error QueryResult) (rt : Runtime)
          (c : Int) (w : World DB) (reports : List SlowQueryReport) (t : Time),
        ((sqliteReportUsecase find results).GetTopSlowQueries rt c true w).1 =
          Except.ok (reports, t) →
        ∃ (conn : CHConnection) (res : QueryResult),
          find c = Except.ok (some conn) ∧ results conn slowQuerySQL = Except.ok res ∧
          reports.map (fun r =>
            (r.ConnectionID, r.ExecutedBy, r.SampleQuery, r.QueryNormalized, r.Executions,
              r.AvgDurationMs, r.P95DurationMs, r.MaxDurationMs, r.TotalRowsRead,
              r.TotalBytesRead, r.LastRefresh, r.CreatedAt, r.UpdatedAt)) =
          res.Rows.map (fun row =>
            (c, getString (row.get "executed_by"), getString (row.get "sample_query"),
              getString (row.get "query_normalized"),
              getUint64 rt.floatOverflow (row.get "executions"),
              getFloat64 (row.get "avg_duration_ms"), getFloat64 (row.get "p95_duration_ms"),
              getFloat64 (row.get "max_duration_ms"),
              getUint64 rt.floatOverflow (row.get "total_rows_read"),
              getUint64 rt.floatOverflow (row.get "total_bytes_read"), rt.now, rt.now, rt.now))) := by
  constructor
  · intro σ u rt c w conn s1 hfind
    cases hr : u.chClient.ExecuteQueryWithResults conn slowQuerySQL s1 with
    | mk r s2 =>
      cases r with
      | error e =>
        refine ⟨[Call.FindByID c, Call.ExecuteQueryWithResults conn slowQuerySQL], ?_, ?_, ?_, ?_,
          ?_⟩
        · simp [reportUsecase.GetTopSlowQueries, reportUsecase.remoteAggregation, World.invoke,
            hfind, hr]
        · intro call hcall
          simp only [List.mem_cons, List.mem_singleton, List.not_mem_nil, or_false] at hcall
          rcases hcall with h | h <;> subst h <;> rfl
        · simp [List.countP_cons, Call.isExecuteQueryWithResults]
        · simp
        · intro reports t h
          simp [reportUsecase.GetTopSlowQueries, reportUsecase.remoteAggregation, World.invoke,
            hfind, hr] at h
      | ok res =>
        refine ⟨[Call.FindByID c, Call.ExecuteQueryWithResults conn slowQuerySQL,
          Call.SaveSlowQueryReports c (res.Rows.map (mapRow rt.floatOverflow c rt.now))],
          ?_, ?_, ?_, ?_, ?_⟩
        · cases hs : (u.reportRepo.SaveSlowQueryReports c
              (res.Rows.map (mapRow rt.floatOverflow c rt.now)) s2).1.1 <;>
            simp [reportUsecase.GetTopSlowQueries, reportUsecase.remoteAggregation, World.invoke,
              hfind, hr, hs]
        · intro call hcall
          simp only [List.mem_cons, List.mem_singleton, List.not_mem_nil, or_false] at hcall
          rcases hcall with h | h | h <;> subst h <;> rfl
        · simp [List.countP_cons, Call.isExecuteQueryWithResults]
        · simp
        · intro reports t h
          refine ⟨res, s2, rfl, ?_⟩
          cases hs : (u.reportRepo.SaveSlowQueryReports c
              (res.Rows.map (mapRow rt.floatOverflow c rt.now)) s2).1.1 <;>
            simp [reportUsecase.GetTopSlowQueries, reportUsecase.remoteAggregation, World.invoke,
              hfind, hr, hs] at h
          exact h.1.symm
  · intro find results rt c w reports t h
    rcases sqlite_GetTopSlowQueries_ok find results rt c true w reports t h with
      ⟨hf, _, _⟩ | ⟨conn, res, hfind, hres, _, hrep⟩
    · cases hf
    · refine ⟨conn, res, hfind, hres, ?_⟩
      rw [hrep, assignIDs_map (fun r =>
            (r.ConnectionID, r.ExecutedBy, r.SampleQuery, r.QueryNormalized, r.Executions,
              r.AvgDurationMs, r.P95DurationMs, r.MaxDurationMs, r.TotalRowsRead,
              r.TotalBytesRead, r.LastRefresh, r.CreatedAt, r.UpdatedAt)) (fun _ _ => rfl), List.map_map]
      rfl

/-- Witness of C8: a forced refresh of scenario 3 on the seeded store (two cached rows). The
call log has no cache lookup and one remote call, and the three reports carry the columns of
the three remote rows. -/
theorem C8_forced_refresh_witness :
    (∃ new : List Call,
      ((sqliteReportUsecase findConn7 (remoteReturning scenario3Rows)).GetTopSlowQueries
          runtime1000 7 true { state := seededDB, calls := [] }).2.calls = [] ++ new ∧
      (∀ call ∈ new, call.isGetSlowQueryReports = false) ∧
      new.countP Call.isExecuteQueryWithResults = 1 ∧
      Call.ExecuteQueryWithResults conn7 slowQuerySQL ∈ new ∧
      ∀ (reports : List SlowQueryReport) (t : Time),
        ((sqliteReportUsecase findConn7 (remoteReturning scenario3Rows)).GetTopSlowQueries
            runtime1000 7 true { state := seededDB, calls := [] }).1 =
          Except.ok (reports, t) →
        ∃ (res : QueryResult) (s2 : DB),
          (sqliteReportUsecase findConn7
              (remoteReturning scenario3Rows)).chClient.ExecuteQueryWithResults conn7
            slowQuerySQL seededDB = (Except.ok res, s2) ∧
          reports =
            ((sqliteReportUsecase findConn7
                (remoteReturning scenario3Rows)).reportRepo.SaveSlowQueryReports 7
              (res.Rows.map (mapRow runtime1000.floatOverflow 7 runtime1000.now)) s2).1.2) ∧
      ∃ (conn : CHConnection) (res : QueryResult),
        findConn7 7 = Except.ok (some conn) ∧
        remoteReturning scenario3Rows conn slowQuerySQL = Except.ok res ∧
        scenario3Reports.map (fun r =>
            (r.ConnectionID, r.ExecutedBy, r.SampleQuery, r.QueryNormalized, r.Executions,
              r.AvgDurationMs, r.P95DurationMs, r.MaxDurationMs, r.TotalRowsRead,
              r.TotalBytesRead, r.LastRefresh, r.CreatedAt, r.UpdatedAt)) =
          res.Rows.map (fun row =>
            ((7 : Int), getString (row.get "executed_by"), getString (row.get "sample_query"),
              getString (row.get "query_normalized"),
              getUint64 runtime1000.floatOverflow (row.get "executions"),
              getFloat64 (row.get "avg_duration_ms"), getFloat64 (row.get "p95_duration_ms"),
              getFloat64 (row.get "max_duration_ms"),
              getUint64 runtime1000.floatOverflow (row.get "total_rows_read"),
              getUint64 runtime1000.floatOverflow (row.get "total_bytes_read"), runtime1000.now, runtime1000.now, runtime1000.now)) :=
  ⟨C8_forced_refresh.1 DB (sqliteReportUsecase findConn7 (remoteReturning scenario3Rows))
      runtime1000 7 { state := seededDB, calls := [] } conn7 seededDB (by rfl),
    C8_forced_refresh.2 findConn7 (remoteReturning scenario3Rows) runtime1000 7
      { state := seededDB, calls := [] } scenario3Reports 1000 (by rfl)⟩

/-- C9 (cache miss equals forced refresh): when the cache lookup succeeds with no rows and
leaves the collaborators in state `s0`, the non-forced call returns the same outcome and the
same final state as the forced call started in `s0` with the same runtime, and its call log
is the lookup followed by exactly the calls of that forced call (same `FindByID`, same remote
statement, same `SaveSlowQueryReports`). -/
theorem C9_cache_miss_is_forced_refresh {σ : Type} (u : reportUsecase σ) (rt : Runtime)
    (c : Int) (w : World σ) (s0 : σ)
    (hget : u.reportRepo.GetSlowQueryReports c w.state = (Except.ok [], s0)) :
    (u.GetTopSlowQueries rt c false w).1 =
        (u.GetTopSlowQueries rt c true { state := s0, calls := [] }).1 ∧
      (u.GetTopSlowQueries rt c false w).2.state =
        (u.GetTopSlowQueries rt c true { state := s0, calls := [] }).2.state ∧
      (u.GetTopSlowQueries rt c false w).2.calls =
        w.calls ++ Call.GetSlowQueryReports c ::
          (u.GetTopSlowQueries rt c true { state := s0, calls := [] }).2.calls := by
  have hfalse : u.GetTopSlowQueries rt c false w =
      u.remoteAggregation rt c { state := s0, calls := w.calls ++ [Call.GetSlowQueryReports c] } := by
    simp [reportUsecase.GetTopSlowQueries, World.invoke, hget]
  have htrue : u.GetTopSlowQueries rt c true { state := s0, calls := [] } =
      u.remoteAggregation rt c { state := s0, calls := [] } := by
    simp [reportUsecase.GetTopSlowQueries]
  rw [hfalse, htrue, remoteAggregation_log]
  simp

/-- Witness of C9: scenario 3 on a store with no rows. -/
theorem C9_cache_miss_is_forced_refresh_witness :
    ((sqliteReportUsecase findConn7 (remoteReturning scenario3Rows)).GetTopSlowQueries
          runtime1000 7 false { state := emptyDB, calls := [] }).1 =
        ((sqliteReportUsecase findConn7 (remoteReturning scenario3Rows)).GetTopSlowQueries
          runtime1000 7 true
          { state := { emptyDB with stmts := [Stmt.select 7] }, calls := [] }).1 ∧
      ((sqliteReportUsecase findConn7 (remoteReturning scenario3Rows)).GetTopSlowQueries
          runtime1000 7 false { state := emptyDB, calls := [] }).2.state =
        ((sqliteReportUsecase findConn7 (remoteReturning scenario3Rows)).GetTopSlowQueries
          runtime1000 7 true
          { state := { emptyDB with stmts := [Stmt.select 7] }, calls := [] }).2.state ∧
      ((sqliteReportUsecase findConn7 (remoteReturning scenario3Rows)).GetTopSlowQueries
          runtime1000 7 false { state := emptyDB, calls := [] }).2.calls =
        [] ++ Call.GetSlowQueryReports 7 ::
          ((sqliteReportUsecase findConn7 (remoteReturning scenario3Rows)).GetTopSlowQueries
            runtime1000 7 true
            { state := { emptyDB with stmts := [Stmt.select 7] }, calls := [] }).2.calls :=
  C9_cache_miss_is_forced_refresh
    (sqliteReportUsecase findConn7 (remoteReturning scenario3Rows)) runtime1000 7
    { state := emptyDB, calls := [] } { emptyDB with stmts := [Stmt.select 7] } (by rfl)

/-- Deleting the rows of a connection leaves none of them. -/
theorem rowsOf_rowsNotOf (c : Int) (table : List SlowQueryReport) :
    rowsOf c (rowsNotOf c table) = [] := by
  simp [rowsOf, rowsNotOf, List.filter_filter]

/-- The outcome of a save and the table it leaves do not depend on the statement log. -/
theorem sqlite_save_stmts (c : Int) (reports : List SlowQueryReport) (db : DB)
    (stmts : List Stmt) :
    (reportRepo.SaveSlowQueryReports c reports { db with stmts := stmts }).1 =
        (reportRepo.SaveSlowQueryReports c reports db).1 ∧
      (reportRepo.SaveSlowQueryReports c reports { db with stmts := stmts }).2.table =
        (reportRepo.SaveSlowQueryReports c reports db).2.table := by
  unfold reportRepo.SaveSlowQueryReports
  cases hd : db.faults.deadline with
  | some e => simp [hd]
  | none =>
    cases hb : db.faults.txBegin with
    | some e => simp [hd, hb]
    | none =>
      cases hx : db.faults.delete with
      | some e => simp [hd, hb, hx]
      | none =>
        cases hi : db.faults.create with
        | some e =>
          cases hc : db.faults.txCommit <;> simp only [hd, hb, hx, hi, hc] <;> split <;> simp
        | none =>
          cases hc : db.faults.txCommit <;> simp only [hd, hb, hx, hi, hc] <;> split <;> simp

/-- A failed save leaves the table as it was. -/
theorem sqlite_save_fail (c : Int) (reports : List SlowQueryReport) (db : DB) (e : Error)
    (h : (reportRepo.SaveSlowQueryReports c reports db).1.1 = some e) :
    (reportRepo.SaveSlowQueryReports c reports db).2.table = db.table := by
  unfold reportRepo.SaveSlowQueryReports at h ⊢
  cases hd : db.faults.deadline with
  | some e => simp [hd]
  | none =>
    cases hb : db.faults.txBegin with
    | some e => simp [hd, hb]
    | none =>
      cases hx : db.faults.delete with
      | some e => simp [hd, hb, hx]
      | none =>
        cases reports with
        | nil =>
          cases hc : db.faults.txCommit with
          | some e => simp [hd, hb, hx, hc]
          | none => simp [hd, hb, hx, hc] at h
        | cons r rs =>
          cases hi : db.faults.create with
          | some e => simp [hd, hb, hx, hi]
          | none =>
            cases hc : db.faults.txCommit with
            | some e => simp [hd, hb, hx, hi, hc]
            | none => simp [hd, hb, hx, hi, hc] at h

/-- A successful save of the empty list issues the delete only. -/
theorem sqlite_save_nil_ok (c : Int) (db : DB)
    (h : (reportRepo.SaveSlowQueryReports c [] db).1.1 = none) :
    reportRepo.SaveSlowQueryReports c [] db =
      ((none, []),
        { db with table := rowsNotOf c db.table, stmts := db.stmts ++ [Stmt.delete c] }) := by
  unfold reportRepo.SaveSlowQueryReports at h ⊢
  cases hd : db.faults.deadline with
  | some e => simp [hd] at h
  | none =>
    cases hb : db.faults.txBegin with
    | some e => simp [hd, hb] at h
    | none =>
      cases hx : db.faults.delete with
      | some e => simp [hd, hb, hx] at h
      | none =>
        cases hc : db.faults.txCommit with
        | some e => simp [hd, hb, hx, hc] at h
        | none => simp [hd, hb, hx, hc]

/-- With the connection resolved and the remote statement answered, the remote aggregation
against the local store is the save of the mapped rows: its error, or the saved records with
the clock reading. -/
theorem sqlite_remoteAggregation_run (find : Int → Except Error (Option CHConnection))
    (results : CHConnection → String → Except Error QueryResult) (rt : Runtime) (c : Int)
    (w : World DB) (conn : CHConnection) (res : QueryResult)
    (hfind : find c = Except.ok (some conn))
    (hres : results conn slowQuerySQL = Except.ok res) :
    (sqliteReportUsecase find results).remoteAggregation rt c w =
      ((match (reportRepo.SaveSlowQueryReports c
            (res.Rows.map (mapRow rt.floatOverflow c rt.now)) w.state).1.1 with
        | some e => Except.error e
        | none =>
          Except.ok ((reportRepo.SaveSlowQueryReports c
            (res.Rows.map (mapRow rt.floatOverflow c rt.now)) w.state).1.2, rt.now)),
        { state := (reportRepo.SaveSlowQueryReports c
            (res.Rows.map (mapRow rt.floatOverflow c rt.now)) w.state).2
          calls := w.calls ++
            [Call.FindByID c, Call.ExecuteQueryWithResults conn slowQuerySQL,
              Call.SaveSlowQueryReports c
                (res.Rows.map (mapRow rt.floatOverflow c rt.now))] }) := by
  simp only [reportUsecase.remoteAggregation, World.invoke, sqliteReportUsecase,
    fixedConnectionRepository, fixedClickHouseClient, sqliteReportRepository, hfind, hres]
  cases hs : (reportRepo.SaveSlowQueryReports c
      (res.Rows.map (mapRow rt.floatOverflow c rt.now)) w.state).1.1 <;> simp

/-- A store lookup that succeeds with no rows means that no row of the connection is stored;
it only adds the select to the statement log. -/
theorem sqlite_get_nil (c : Int) (db : DB)
    (h : (reportRepo.GetSlowQueryReports c db).1 = Except.ok []) :
    rowsOf c db.table = [] ∧
      reportRepo.GetSlowQueryReports c db =
        (Except.ok [], { db with stmts := db.stmts ++ [Stmt.select c] }) := by
  have hx := sqlite_get_ok c db [] h
  have hperm := List.perm_insertionSort maxDurationDesc (rowsOf c db.table)
  rw [← hx.1] at hperm
  have hnil : rowsOf c db.table = [] := List.Perm.nil_eq hperm |>.symm
  refine ⟨hnil, ?_⟩
  have h2 := hx.2
  rw [Prod.ext_iff]
  exact ⟨h, h2⟩

/-- C10, as stated, fails when the store rejects the save: on the seeded store whose delete
fails because the database is locked, the forced refresh with an empty remote answer calls
`SaveSlowQueryReports 7 []`, returns the save error instead of succeeding, and the two rows
of connection 7 remain. -/
theorem C10_counterexample :
    (sqliteReportUsecase findConn7 (remoteReturning [])).GetTopSlowQueries runtime1000 7 true
        { state := lockedDB, calls := [] } =
      (Except.error "ReportRepository.SaveSlowQueryReports: database is locked",
        { state := { lockedDB with stmts := [Stmt.delete 7] },
          calls := [Call.FindByID 7, Call.ExecuteQueryWithResults conn7 slowQuerySQL,
            Call.SaveSlowQueryReports 7 []] }) ∧
      rowsOf 7 ((sqliteReportUsecase findConn7 (remoteReturning [])).GetTopSlowQueries
          runtime1000 7 true { state := lockedDB, calls := [] }).2.state.table =
        [seededReport 1 900 100, seededReport 2 750 100] := by
  exact ⟨by rfl, by rfl⟩

/-- C10 (amended; empty remote result): against the local store, for an existing connection
whose remote aggregation returns zero rows, whenever the refresh path runs (forced, or the
lookup succeeded with no rows), `SaveSlowQueryReports` is called with the empty list. If that
save succeeds, `GetTopSlowQueries` succeeds with the empty sequence and the captured clock
reading, the save issues the delete only (no insert), and the table afterwards is the
previous one without the rows of `c`, so no row of `c` is left. If that save fails with `e`,
`GetTopSlowQueries` returns `e` and the table is as before. -/
theorem C10_empty_remote (find : Int → Except Error (Option CHConnection))
    (results : CHConnection → String → Except Error QueryResult) (rt : Runtime) (c : Int)
    (forceRefresh : Bool) (db : DB) (calls : List Call) (conn : CHConnection)
    (res : QueryResult)
    (hfind : find c = Except.ok (some conn))
    (hres : results conn slowQuerySQL = Except.ok res)
    (hrows : res.Rows = [])
    (hreach : forceRefresh = true ∨
      (reportRepo.GetSlowQueryReports c db).1 = Except.ok []) :
    ((sqliteReportUsecase find results).GetTopSlowQueries rt c forceRefresh
        { state := db, calls := calls }).2.calls =
      calls ++ (if forceRefresh then [] else [Call.GetSlowQueryReports c]) ++
        [Call.FindByID c, Call.ExecuteQueryWithResults conn slowQuerySQL,
          Call.SaveSlowQueryReports c []] ∧
      ((reportRepo.SaveSlowQueryReports c [] db).1.1 = none →
        (sqliteReportUsecase find results).GetTopSlowQueries rt c forceRefresh
            { state := db, calls := calls } =
          (Except.ok ([], rt.now),
            { state :=
                { db with
                  table := rowsNotOf c db.table
                  stmts := db.stmts ++ (if forceRefresh then [] else [Stmt.select c]) ++
                    [Stmt.delete c] }
              calls := calls ++ (if forceRefresh then [] else [Call.GetSlowQueryReports c]) ++
                [Call.FindByID c, Call.ExecuteQueryWithResults conn slowQuerySQL,
                  Call.SaveSlowQueryReports c []] }) ∧
          rowsOf c (rowsNotOf c db.table) = []) ∧
      ∀ e : Error, (reportRepo.SaveSlowQueryReports c [] db).1.1 = some e →
        ((sqliteReportUsecase find results).GetTopSlowQueries rt c forceRefresh
            { state := db, calls := calls }).1 = Except.error e ∧
          ((sqliteReportUsecase find results).GetTopSlowQueries rt c forceRefresh
            { state := db, calls := calls }).2.state.table = db.table := by
  have core : ∀ (db0 : DB) (calls0 : List Call), db0.table = db.table →
      (reportRepo.SaveSlowQueryReports c [] db0).1 =
        (reportRepo.SaveSlowQueryReports c [] db).1 →
      ((sqliteReportUsecase find results).remoteAggregation rt c
          { state := db0, calls := calls0 }).2.calls =
        calls0 ++ [Call.FindByID c, Call.ExecuteQueryWithResults conn slowQuerySQL,
          Call.SaveSlowQueryReports c []] ∧
      ((reportRepo.SaveSlowQueryReports c [] db).1.1 = none →
        (sqliteReportUsecase find results).remoteAggregation rt c
            { state := db0, calls := calls0 } =
          (Except.ok ([], rt.now),
            { state :=
                { db0 with
                  table := rowsNotOf c db0.table, stmts := db0.stmts ++ [Stmt.delete c] }
              calls := calls0 ++
                [Call.FindByID c, Call.ExecuteQueryWithResults conn slowQuerySQL,
                  Call.SaveSlowQueryReports c []] })) ∧
      ∀ e : Error, (reportRepo.SaveSlowQueryReports c [] db).1.1 = some e →
        ((sqliteReportUsecase find results).remoteAggregation rt c
            { state := db0, calls := calls0 }).1 = Except.error e ∧
          ((sqliteReportUsecase find results).remoteAggregation rt c
            { state := db0, calls := calls0 }).2.state.table = db.table := by
    intro db0 calls0 htable0 hsave1
    have hagg := sqlite_remoteAggregation_run find results rt c
      { state := db0, calls := calls0 } conn res hfind hres
    rw [hrows] at hagg
    simp only [List.map_nil] at hagg
    rw [hagg]
    refine ⟨rfl, ?_, ?_⟩
    · intro hok
      have hok0 : (reportRepo.SaveSlowQueryReports c [] db0).1.1 = none := by
        rw [hsave1]
        exact hok
      rw [sqlite_save_nil_ok c db0 hok0]
    · intro e he
      have he0 : (reportRepo.SaveSlowQueryReports c [] db0).1.1 = some e := by
        rw [hsave1]
        exact he
      refine ⟨by rw [he0], ?_⟩
      show (reportRepo.SaveSlowQueryReports c [] db0).2.table = db.table
      rw [sqlite_save_fail c [] db0 e he0, htable0]
  cases forceRefresh with
  | true =>
    have hgo : (sqliteReportUsecase find results).GetTopSlowQueries rt c true
        { state := db, calls := calls } =
        (sqliteReportUsecase find results).remoteAggregation rt c
          { state := db, calls := calls } := by
      simp [reportUsecase.GetTopSlowQueries]
    rw [hgo]
    obtain ⟨h1, h2, h3⟩ := core db calls rfl rfl
    refine ⟨by simpa using h1, fun hok => ⟨?_, rowsOf_rowsNotOf c db.table⟩, h3⟩
    rw [h2 hok]
    simp
  | false =>
    have hget : (reportRepo.GetSlowQueryReports c db).1 = Except.ok [] := by
      rcases hreach with h | h
      · cases h
      · exact h
    have hnil := sqlite_get_nil c db hget
    have hgo : (sqliteReportUsecase find results).GetTopSlowQueries rt c false
        { state := db, calls := calls } =
        (sqliteReportUsecase find results).remoteAggregation rt c
          { state := { db with stmts := db.stmts ++ [Stmt.select c] },
            calls := calls ++ [Call.GetSlowQueryReports c] } := by
      simp [reportUsecase.GetTopSlowQueries, World.invoke, sqliteReportUsecase,
        sqliteReportRepository, hnil.2]
    rw [hgo]
    obtain ⟨h1, h2, h3⟩ := core { db with stmts := db.stmts ++ [Stmt.select c] }
      (calls ++ [Call.GetSlowQueryReports c]) rfl (sqlite_save_stmts c [] db _).1
    refine ⟨by simpa using h1, fun hok => ⟨?_, rowsOf_rowsNotOf c db.table⟩, h3⟩
    rw [h2 hok]
    simp

/-- Witness of the amended C10: scenario 2, a forced refresh on the seeded store with an empty
remote answer, where the save succeeds. -/
theorem C10_empty_remote_witness :
    (sqliteReportUsecase findConn7 (remoteReturning [])).GetTopSlowQueries runtime1000 7 true
        { state := seededDB, calls := [] } =
      (Except.ok ([], runtime1000.now),
        { state :=
            { seededDB with
              table := rowsNotOf 7 seededDB.table
              stmts := seededDB.stmts ++ (if true then [] else [Stmt.select 7]) ++
                [Stmt.delete 7] }
          calls := [] ++ (if true then [] else [Call.GetSlowQueryReports 7]) ++
            [Call.FindByID 7, Call.ExecuteQueryWithResults conn7 slowQuerySQL,
              Call.SaveSlowQueryReports 7 []] }) ∧
      rowsOf 7 (rowsNotOf 7 seededDB.table) = [] :=
  (C10_empty_remote findConn7 (remoteReturning []) runtime1000 7 true seededDB [] conn7
    { Columns := [], Rows := [] } (by rfl) (by rfl) (by rfl) (Or.inl rfl)).2.1 (by rfl)

/-- The outcome of the store lookup does not depend on the statement log. -/
theorem sqlite_get_stmts (c : Int) (db : DB) (stmts : List Stmt) :
    (reportRepo.GetSlowQueryReports c { db with stmts := stmts }).1 =
      (reportRepo.GetSlowQueryReports c db).1 := by
  unfold reportRepo.GetSlowQueryReports
  cases hd : db.faults.deadline with
  | some e => simp [hd]
  | none =>
    cases hf : db.faults.find with
    | some e => simp [hd, hf]
    | none => simp [hd, hf]

/-- A non-forced call on a store whose lookup answers a non-empty sequence returns that
sequence with the `CreatedAt` of its first element. -/
theorem sqlite_cache_hit (find : Int → Except Error (Option CHConnection))
    (results : CHConnection → String → Except Error QueryResult) (rt : Runtime) (c : Int)
    (w : World DB) (first : SlowQueryReport) (rest : List SlowQueryReport)
    (h : (reportRepo.GetSlowQueryReports c w.state).1 = Except.ok (first :: rest)) :
    ((sqliteReportUsecase find results).GetTopSlowQueries rt c false w).1 =
      Except.ok (first :: rest, first.CreatedAt) := by
  simp [reportUsecase.GetTopSlowQueries, World.invoke, sqliteReportUsecase,
    sqliteReportRepository, h]

/-- C11, as stated, fails when no row is persisted for the connection: on the empty store a
forced refresh fails because the remote server is down and leaves the store empty, but a
following non-forced call does not return the previously persisted rows (there are none): it
is a cache miss that runs the remote aggregation again, failing while the server is still
down and returning three fresh rows once the server answers. -/
theorem C11_counterexample :
    (sqliteReportUsecase findConn7 remoteDown).GetTopSlowQueries runtime1000 7 true
        { state := emptyDB, calls := [] } =
      (Except.error "remote execution failed",
        { state := emptyDB,
          calls := [Call.FindByID 7, Call.ExecuteQueryWithResults conn7 slowQuerySQL] }) ∧
      rowsOf 7 emptyDB.table = [] ∧
      ((sqliteReportUsecase findConn7 remoteDown).GetTopSlowQueries runtime1000 7 false
          ((sqliteReportUsecase findConn7 remoteDown).GetTopSlowQueries runtime1000 7 true
            { state := emptyDB, calls := [] }).2).1 =
        Except.error "remote execution failed" ∧
      ((sqliteReportUsecase findConn7 (remoteReturning scenario3Rows)).GetTopSlowQueries
          runtime1000 7 false
          ((sqliteReportUsecase findConn7 remoteDown).GetTopSlowQueries runtime1000 7 true
            { state := emptyDB, calls := [] }).2).1 =
        Except.ok
          ((assignIDs 1 (scenario3Rows.map (mapRow runtime1000.floatOverflow 7 1000))).1,
            1000) ∧
      (assignIDs 1 (scenario3Rows.map (mapRow runtime1000.floatOverflow 7 1000))).1.length =
        3 := by
  refine ⟨by rfl, by rfl, by rfl, by rfl, by rfl⟩

/-- C11 (amended; remote failure leaves the cache untouched): against the local store, for an
existing connection, when the refresh path runs (forced, or a working lookup found no row of
`c`) and `ExecuteQueryWithResults` fails with `e`, `GetTopSlowQueries` returns `e` with no
reports and no timestamp; the call log ends with the remote call, so `SaveSlowQueryReports` is
never called; the table, the identifier counter and the fault environment are as before; and,
when at least one row is persisted for `c` and the store lookup does not fail (the deadline
has not expired and the select succeeds), a following non-forced call, whatever the remote
server then answers, returns exactly the persisted rows of `c`, ordered by `max_duration_ms`
descending, with the `CreatedAt` of the first. -/
theorem C11_remote_failure (find : Int → Except Error (Option CHConnection))
    (results : CHConnection → String → Except Error QueryResult) (rt : Runtime) (c : Int)
    (forceRefresh : Bool) (db : DB) (calls : List Call) (conn : CHConnection) (e : Error)
    (hfind : find c = Except.ok (some conn))
    (hres : results conn slowQuerySQL = Except.error e)
    (hreach : forceRefresh = true ∨
      (db.faults.deadline = none ∧ db.faults.find = none ∧ rowsOf c db.table = [])) :
    (sqliteReportUsecase find results).GetTopSlowQueries rt c forceRefresh
        { state := db, calls := calls } =
      (Except.error e,
        { state :=
            { db with stmts := db.stmts ++ (if forceRefresh then [] else [Stmt.select c]) }
          calls := calls ++ (if forceRefresh then [] else [Call.GetSlowQueryReports c]) ++
            [Call.FindByID c, Call.ExecuteQueryWithResults conn slowQuerySQL] }) ∧
      ∀ (results2 : CHConnection → String → Except Error QueryResult) (rt2 : Runtime),
        rowsOf c db.table ≠ [] → db.faults.deadline = none → db.faults.find = none →
        ∃ (first : SlowQueryReport) (rest : List SlowQueryReport),
          ((sqliteReportUsecase find results2).GetTopSlowQueries rt2 c false
              ((sqliteReportUsecase find results).GetTopSlowQueries rt c forceRefresh
                { state := db, calls := calls }).2).1 =
            Except.ok (first :: rest, first.CreatedAt) ∧
          List.Perm (first :: rest) (rowsOf c db.table) ∧
          List.Sorted maxDurationDesc (first :: rest) := by
  have hrun : (sqliteReportUsecase find results).GetTopSlowQueries rt c forceRefresh
        { state := db, calls := calls } =
      (Except.error e,
        { state :=
            { db with stmts := db.stmts ++ (if forceRefresh then [] else [Stmt.select c]) }
          calls := calls ++ (if forceRefresh then [] else [Call.GetSlowQueryReports c]) ++
            [Call.FindByID c, Call.ExecuteQueryWithResults conn slowQuerySQL] }) := by
    cases forceRefresh with
    | true =>
      simp [reportUsecase.GetTopSlowQueries, reportUsecase.remoteAggregation, World.invoke,
        sqliteReportUsecase, fixedConnectionRepository, fixedClickHouseClient, hfind, hres]
    | false =>
      rcases hreach with h | ⟨hd, hf, hempty⟩
      · cases h
      · simp [reportUsecase.GetTopSlowQueries, reportUsecase.remoteAggregation, World.invoke,
          sqliteReportUsecase, sqliteReportRepository, fixedConnectionRepository,
          fixedClickHouseClient, reportRepo.GetSlowQueryReports, hfind, hres, hd, hf, hempty]
  refine ⟨hrun, ?_⟩
  intro results2 rt2 hrows hd hf
  have hget : (reportRepo.GetSlowQueryReports c db).1 =
      Except.ok ((rowsOf c db.table).insertionSort maxDurationDesc) := by
    simp [reportRepo.GetSlowQueryReports, hd, hf]
  have hperm := List.perm_insertionSort maxDurationDesc (rowsOf c db.table)
  have hsorted := List.sorted_insertionSort maxDurationDesc (rowsOf c db.table)
  cases hsort : (rowsOf c db.table).insertionSort maxDurationDesc with
  | nil =>
    rw [hsort] at hperm
    exact absurd (List.Perm.nil_eq hperm).symm hrows
  | cons first rest =>
    rw [hsort] at hperm hsorted hget
    refine ⟨first, rest, ?_, hperm, hsorted⟩
    rw [hrun]
    apply sqlite_cache_hit
    rw [← hget]
    exact sqlite_get_stmts c db _

/-- Witness of the amended C11: scenario 4, a forced refresh on the seeded store while the
remote server is down, followed by a non-forced call, which returns the seeded rows. -/
theorem C11_remote_failure_witness :
    (sqliteReportUsecase findConn7 remoteDown).GetTopSlowQueries runtime1000 7 true
        { state := seededDB, calls := [] } =
      (Except.error "remote execution failed",
        { state :=
            { seededDB with
              stmts := seededDB.stmts ++ (if true then [] else [Stmt.select 7]) }
          calls := [] ++ (if true then [] else [Call.GetSlowQueryReports 7]) ++
            [Call.FindByID 7, Call.ExecuteQueryWithResults conn7 slowQuerySQL] }) ∧
      ∃ (first : SlowQueryReport) (rest : List SlowQueryReport),
        ((sqliteReportUsecase findConn7 remoteDown).GetTopSlowQueries runtime1000 7 false
            ((sqliteReportUsecase findConn7 remoteDown).GetTopSlowQueries runtime1000 7 true
              { state := seededDB, calls := [] }).2).1 =
          Except.ok (first :: rest, first.CreatedAt) ∧
        List.Perm (first :: rest) (rowsOf 7 seededDB.table) ∧
        List.Sorted maxDurationDesc (first :: rest) :=
  ⟨(C11_remote_failure findConn7 remoteDown runtime1000 7 true seededDB [] conn7
      "remote execution failed" (by rfl) (by rfl) (Or.inl rfl)).1,
    (C11_remote_failure findConn7 remoteDown runtime1000 7 true seededDB [] conn7
      "remote execution failed" (by rfl) (by rfl) (Or.inl rfl)).2
      remoteDown runtime1000
      (by
        have h : rowsOf 7 seededDB.table =
            [seededReport 1 900 100, seededReport 2 750 100] := by rfl
        rw [h]
        exact List.cons_ne_nil _ _)
      (by rfl) (by rfl)⟩

/-- C12 (cache lookup failure): when the refresh is not forced and `GetSlowQueryReports c`
fails with `e`, `GetTopSlowQueries` returns `e` with no reports and no timestamp, and the only
collaborator call made is that lookup: no `FindByID`, no remote statement, no
`SaveSlowQueryReports`. -/
theorem C12_cache_lookup_failure {σ : Type} (u : reportUsecase σ) (rt : Runtime) (c : Int)
    (w : World σ) (e : Error) (s : σ)
    (hget : u.reportRepo.GetSlowQueryReports c w.state = (Except.error e, s)) :
    u.GetTopSlowQueries rt c false w =
      (Except.error e, { state := s, calls := w.calls ++ [Call.GetSlowQueryReports c] }) := by
  simp [reportUsecase.GetTopSlowQueries, World.invoke, hget]

/-- Witness of C12: the lookup on the seeded store fails with a disk error. -/
theorem C12_cache_lookup_failure_witness :
    (sqliteReportUsecase findConn7 (remoteReturning scenario3Rows)).GetTopSlowQueries
        runtime1000 7 false { state := brokenDB, calls := [] } =
      (Except.error "ReportRepository.GetSlowQueryReports: disk I/O error",
        { state := { brokenDB with stmts := [Stmt.select 7] },
          calls := [] ++ [Call.GetSlowQueryReports 7] }) :=
  C12_cache_lookup_failure (sqliteReportUsecase findConn7 (remoteReturning scenario3Rows))
    runtime1000 7 { state := brokenDB, calls := [] }
    "ReportRepository.GetSlowQueryReports: disk I/O error"
    { brokenDB with stmts := [Stmt.select 7] } (by rfl)

/-- A successful save leaves the table as the rows of the other connections followed by the
saved records with their timestamps stamped and their identifiers assigned. -/
theorem sqlite_save_table (c : Int) (reports : List SlowQueryReport) (db : DB)
    (h : (reportRepo.SaveSlowQueryReports c reports db).1.1 = none) :
    (reportRepo.SaveSlowQueryReports c reports db).2.table =
      rowsNotOf c db.table ++ (assignIDs db.nextID (reports.map (stampTimes db.clock))).1 := by
  unfold reportRepo.SaveSlowQueryReports at h ⊢
  cases hd : db.faults.deadline with
  | some e => simp [hd] at h
  | none =>
    cases hb : db.faults.txBegin with
    | some e => simp [hd, hb] at h
    | none =>
      cases hx : db.faults.delete with
      | some e => simp [hd, hb, hx] at h
      | none =>
        cases reports with
        | nil =>
          cases hc : db.faults.txCommit with
          | some e => simp [hd, hb, hx, hc] at h
          | none => simp [hd, hb, hx, hc, assignIDs]
        | cons r rs =>
          cases hi : db.faults.create with
          | some e => simp [hd, hb, hx, hi] at h
          | none =>
            cases hc : db.faults.txCommit with
            | some e => simp [hd, hb, hx, hi, hc] at h
            | none => simp [hd, hb, hx, hi, hc]

/-- Records that all belong to connection `c` still do after identifiers are assigned. -/
theorem assignIDs_connection (c : Int) (reports : List SlowQueryReport) (next : Int)
    (h : ∀ r ∈ reports, r.ConnectionID = c) :
    ∀ r ∈ (assignIDs next reports).1, r.ConnectionID = c := by
  intro r hr
  have hmem : r.ConnectionID ∈ (assignIDs next reports).1.map (fun x => x.ConnectionID) :=
    List.mem_map_of_mem _ hr
  rw [assignIDs_map (fun x => x.ConnectionID) (fun _ _ => rfl)] at hmem
  obtain ⟨r0, hr0, heq⟩ := List.mem_map.mp hmem
  rw [← heq]
  exact h r0 hr0

/-- The rows of connection `c` in a table made of rows of other connections followed by
records of `c` are exactly those records. -/
theorem rowsOf_replaced (c : Int) (table added : List SlowQueryReport)
    (h : ∀ r ∈ added, r.ConnectionID = c) :
    rowsOf c (rowsNotOf c table ++ added) = added := by
  have h1 : rowsOf c (rowsNotOf c table) = [] := rowsOf_rowsNotOf c table
  have h2 : rowsOf c added = added := by
    unfold rowsOf
    exact List.filter_eq_self.mpr (fun r hr => by simpa using h r hr)
  unfold rowsOf at h1 h2 ⊢
  rw [List.filter_append, h1, h2, List.nil_append]

/-- The rows of another connection `k` are not affected by replacing the rows of `c`. -/
theorem rowsOf_other (c k : Int) (hk : k ≠ c) (table added : List SlowQueryReport)
    (h : ∀ r ∈ added, r.ConnectionID = c) :
    rowsOf k (rowsNotOf c table ++ added) = rowsOf k table := by
  have h2 : rowsOf k added = [] := by
    unfold rowsOf
    refine List.filter_eq_nil_iff.mpr (fun r hr => ?_)
    have := h r hr
    simp [this, Ne.symm hk]
  have h1 : rowsOf k (rowsNotOf c table) = rowsOf k table := by
    unfold rowsOf rowsNotOf
    rw [List.filter_filter]
    refine List.filter_congr (fun r _ => ?_)
    by_cases hr : r.ConnectionID = k
    · simp [hr, hk]
    · simp [hr]
  unfold rowsOf at h1 h2 ⊢
  rw [List.filter_append, h1, h2, List.append_nil]

/-- The records `mapRow` builds belong to the requested connection. -/
theorem mapRow_connection (ovf : ℚ → Nat) (c : Int) (now : Time) (rows : List Row) :
    ∀ r ∈ rows.map (mapRow ovf c now), r.ConnectionID = c := by
  intro r hr
  obtain ⟨row, _, heq⟩ := List.mem_map.mp hr
  rw [← heq]
  rfl

/-- After a successful refresh against the local store the table is the rows of the other
connections followed by the returned reports. -/
theorem sqlite_refresh_table (find : Int → Except Error (Option CHConnection))
    (results : CHConnection → String → Except Error QueryResult) (rt : Runtime) (c : Int)
    (forceRefresh : Bool) (w : World DB) (reports : List SlowQueryReport) (t : Time)
    (hreach : forceRefresh = true ∨ rowsOf c w.state.table = [])
    (h : ((sqliteReportUsecase find results).GetTopSlowQueries rt c forceRefresh w).1 =
      Except.ok (reports, t)) :
    ((sqliteReportUsecase find results).GetTopSlowQueries rt c forceRefresh w).2.state.table =
      rowsNotOf c w.state.table ++ reports := by
  have key : ∀ w0 : World DB,
      ((sqliteReportUsecase find results).remoteAggregation rt c w0).1 =
        Except.ok (reports, t) →
      ((sqliteReportUsecase find results).remoteAggregation rt c w0).2.state.table =
        rowsNotOf c w0.state.table ++ reports := by
    intro w0 h0
    simp only [reportUsecase.remoteAggregation, World.invoke, sqliteReportUsecase,
      fixedConnectionRepository, fixedClickHouseClient, sqliteReportRepository] at h0 ⊢
    cases hfind : find c with
    | error e => simp [hfind] at h0
    | ok oc =>
      cases oc with
      | none => simp [hfind] at h0
      | some conn =>
        cases hres : results conn slowQuerySQL with
        | error e => simp [hfind, hres] at h0
        | ok res =>
          simp only [hfind, hres] at h0 ⊢
          cases hs : (reportRepo.SaveSlowQueryReports c
              (res.Rows.map (mapRow rt.floatOverflow c rt.now)) w0.state).1.1 with
          | some e => simp [hs] at h0
          | none =>
            simp only [hs, Except.ok.injEq, Prod.mk.injEq] at h0 ⊢
            rw [sqlite_save_table _ _ _ hs, ← h0.1, sqlite_save_ok _ _ _ hs]
  cases forceRefresh with
  | true =>
    have h2 : ((sqliteReportUsecase find results).remoteAggregation rt c w).1 =
        Except.ok (reports, t) := by
      simpa [reportUsecase.GetTopSlowQueries] using h
    have h3 := key w h2
    simpa [reportUsecase.GetTopSlowQueries] using h3
  | false =>
    have hempty : rowsOf c w.state.table = [] := by
      rcases hreach with h0 | h0
      · cases h0
      · exact h0
    cases hg : (reportRepo.GetSlowQueryReports c w.state).1 with
    | error e =>
      simp [reportUsecase.GetTopSlowQueries, World.invoke, sqliteReportUsecase,
        sqliteReportRepository, hg] at h
    | ok xs =>
      have hx := sqlite_get_ok c w.state xs hg
      have hnil : xs = [] := by rw [hx.1, hempty]; rfl
      subst hnil
      have h2 : ((sqliteReportUsecase find results).remoteAggregation rt c
          { state := (reportRepo.GetSlowQueryReports c w.state).2,
            calls := w.calls ++ [Call.GetSlowQueryReports c] }).1 =
          Except.ok (reports, t) := by
        simpa [reportUsecase.GetTopSlowQueries, World.invoke, sqliteReportUsecase,
          sqliteReportRepository, hg] using h
      have h3 := key _ h2
      have h4 : ((sqliteReportUsecase find results).GetTopSlowQueries rt c false w).2 =
          ((sqliteReportUsecase find results).remoteAggregation rt c
            { state := (reportRepo.GetSlowQueryReports c w.state).2,
              calls := w.calls ++ [Call.GetSlowQueryReports c] }).2 := by
        simp [reportUsecase.GetTopSlowQueries, World.invoke, sqliteReportUsecase,
          sqliteReportRepository, hg]
      rw [h4, h3]
      simp [hx.2]

/-- Stamping timestamps keeps the connection of every record. -/
theorem stampTimes_connection (c : Int) (cur : Time) (reports : List SlowQueryReport)
    (h : ∀ r ∈ reports, r.ConnectionID = c) :
    ∀ r ∈ reports.map (stampTimes cur), r.ConnectionID = c := by
  intro r hr
  obtain ⟨r0, hr0, heq⟩ := List.mem_map.mp hr
  rw [← heq]
  exact h r0 hr0

/-- C13, as stated, fails for a record whose `CreatedAt` and `UpdatedAt` hold the zero time: a
successful save of such a record for connection 7 stores it with the insertion time 1001 in
both fields, so the stored row differs from the saved one in more than the identifier. -/
theorem C13_counterexample :
    (∀ r ∈ [seededReport 0 500 zeroTime], r.ConnectionID = 7) ∧
      (reportRepo.SaveSlowQueryReports 7 [seededReport 0 500 zeroTime] seededDB).1.1 = none ∧
      rowsOf 7 (reportRepo.SaveSlowQueryReports 7 [seededReport 0 500 zeroTime]
          seededDB).2.table =
        [{ seededReport 0 500 zeroTime with ID := 3, CreatedAt := 1001, UpdatedAt := 1001 }] ∧
      (rowsOf 7 (reportRepo.SaveSlowQueryReports 7 [seededReport 0 500 zeroTime]
          seededDB).2.table).map eraseID ≠
        [seededReport 0 500 zeroTime].map eraseID := by
  have htable : rowsOf 7 (reportRepo.SaveSlowQueryReports 7 [seededReport 0 500 zeroTime]
        seededDB).2.table =
      [{ seededReport 0 500 zeroTime with ID := 3, CreatedAt := 1001, UpdatedAt := 1001 }] := by
    rfl
  refine ⟨?_, by rfl, htable, ?_⟩
  · intro r hr
    rw [List.mem_singleton] at hr
    rw [hr]
    rfl
  · rw [htable]
    intro h
    have h2 := congrArg (fun l => l.map (fun r : SlowQueryReport => r.CreatedAt)) h
    have h3 : ([1001] : List Time) = [0] := h2
    exact absurd h3 (by decide)

/-- C13 (amended; no leftover rows). First part: for every store state, connection `c` and
records `rs` that all carry `ConnectionID = c`, after a successful `SaveSlowQueryReports c rs`
the rows of `c` in the table are exactly the saved records as the call left them: `rs` in the
same order, up to the assigned identifiers and up to `CreatedAt` and `UpdatedAt`, which hold
the insertion time where `rs` had the zero time; hence exactly `rs` up to identifiers when no
record of `rs` has a zero `CreatedAt` or `UpdatedAt`; and the rows of every other connection
are unchanged. Second part: after a successful refresh (forced, or no row cached for `c`) the
rows of `c` in the table are exactly the returned reports, which are the records mapped from
the remote rows up to the assigned identifiers, and the rows of every other connection are
unchanged. -/
theorem C13_no_leftover_rows :
    (∀ (c : Int) (rs : List SlowQueryReport) (db : DB),
        (∀ r ∈ rs, r.ConnectionID = c) →
        (reportRepo.SaveSlowQueryReports c rs db).1.1 = none →
        rowsOf c (reportRepo.SaveSlowQueryReports c rs db).2.table =
            (reportRepo.SaveSlowQueryReports c rs db).1.2 ∧
          (rowsOf c (reportRepo.SaveSlowQueryReports c rs db).2.table).map eraseID =
            rs.map (fun r =>
              { r with
                ID := 0
                CreatedAt := if r.CreatedAt = zeroTime then db.clock else r.CreatedAt
                UpdatedAt := if r.UpdatedAt = zeroTime then db.clock else r.UpdatedAt }) ∧
          ((∀ r ∈ rs, r.CreatedAt ≠ zeroTime ∧ r.UpdatedAt ≠ zeroTime) →
            (rowsOf c (reportRepo.SaveSlowQueryReports c rs db).2.table).map eraseID =
              rs.map eraseID) ∧
          ∀ k : Int, k ≠ c →
            rowsOf k (reportRepo.SaveSlowQueryReports c rs db).2.table = rowsOf k db.table) ∧
      (∀ (find : Int → Except Error (Option CHConnection))
          (results : CHConnection → String → Except Error QueryResult) (rt : Runtime)
          (c : Int) (forceRefresh : Bool) (w : World DB) (reports : List SlowQueryReport)
          (t : Time),
        (forceRefresh = true ∨ rowsOf c w.state.table = []) →
        ((sqliteReportUsecase find results).GetTopSlowQueries rt c forceRefresh w).1 =
          Except.ok (reports, t) →
        ∃ (conn : CHConnection) (res : QueryResult),
          find c = Except.ok (some conn) ∧ results conn slowQuerySQL = Except.ok res ∧
          rowsOf c ((sqliteReportUsecase find results).GetTopSlowQueries rt c forceRefresh
            w).2.state.table = reports ∧
          reports.map eraseID = res.Rows.map (mapRow rt.floatOverflow c rt.now) ∧
          ∀ k : Int, k ≠ c →
            rowsOf k ((sqliteReportUsecase find results).GetTopSlowQueries rt c forceRefresh
              w).2.state.table = rowsOf k w.state.table) := by
  constructor
  · intro c rs db hconn hok
    have hids := assignIDs_connection c _ db.nextID (stampTimes_connection c db.clock rs hconn)
    have hstored : (rowsOf c (rowsNotOf c db.table ++
          (assignIDs db.nextID (rs.map (stampTimes db.clock))).1)).map eraseID =
        rs.map (fun r =>
          { r with
            ID := 0
            CreatedAt := if r.CreatedAt = zeroTime then db.clock else r.CreatedAt
            UpdatedAt := if r.UpdatedAt = zeroTime then db.clock else r.UpdatedAt }) := by
      rw [rowsOf_replaced c db.table _ hids, assignIDs_map eraseID (fun _ _ => rfl),
        List.map_map]
      rfl
    rw [sqlite_save_table c rs db hok, sqlite_save_ok c rs db hok]
    refine ⟨rowsOf_replaced c db.table _ hids, hstored, ?_,
      fun k hk => rowsOf_other c k hk _ _ hids⟩
    intro hnz
    rw [hstored]
    refine List.map_congr_left (fun r hr => ?_)
    simp [eraseID, (hnz r hr).1, (hnz r hr).2]
  · intro find results rt c forceRefresh w reports t hreach h
    have htable := sqlite_refresh_table find results rt c forceRefresh w reports t hreach h
    rcases sqlite_GetTopSlowQueries_ok find results rt c forceRefresh w reports t h with
      ⟨hf, hne, hsort⟩ | ⟨conn, res, hfind, hres, _, hrep⟩
    · exfalso
      rcases hreach with h0 | h0
      · rw [hf] at h0
        cases h0
      · rw [h0] at hsort
        exact hne hsort
    · have hids : ∀ r ∈ reports, r.ConnectionID = c := by
        rw [hrep]
        exact assignIDs_connection c _ _ (mapRow_connection rt.floatOverflow c rt.now res.Rows)
      refine ⟨conn, res, hfind, hres, ?_, ?_, ?_⟩
      · rw [htable]
        exact rowsOf_replaced c _ _ hids
      · rw [hrep, assignIDs_map eraseID (fun _ _ => rfl), List.map_map]
        rfl
      · intro k hk
        rw [htable]
        exact rowsOf_other c k hk _ _ hids

/-- Witness of the amended C13 on the store that also holds a row of connection 8: saving the
three mapped rows of scenario 3 for connection 7 (none with a zero timestamp) leaves exactly
them, up to the identifiers 10, 11, 12, as the rows of 7 and keeps the row of 8; the forced
refresh of scenario 3 does the same. -/
theorem C13_no_leftover_rows_witness :
    (rowsOf 7 (reportRepo.SaveSlowQueryReports 7
          (scenario3Rows.map (mapRow runtime1000.floatOverflow 7 1000)) mixedDB).2.table).map
        eraseID =
        (scenario3Rows.map (mapRow runtime1000.floatOverflow 7 1000)).map eraseID ∧
      (∀ k : Int, k ≠ 7 →
        rowsOf k (reportRepo.SaveSlowQueryReports 7
          (scenario3Rows.map (mapRow runtime1000.floatOverflow 7 1000)) mixedDB).2.table =
          rowsOf k mixedDB.table) ∧
      ∃ (conn : CHConnection) (res : QueryResult),
        findConn7 7 = Except.ok (some conn) ∧
        remoteReturning scenario3Rows conn slowQuerySQL = Except.ok res ∧
        rowsOf 7 ((sqliteReportUsecase findConn7
            (remoteReturning scenario3Rows)).GetTopSlowQueries runtime1000 7 true
          { state := mixedDB, calls := [] }).2.state.table =
          (assignIDs 10 (scenario3Rows.map (mapRow runtime1000.floatOverflow 7 1000))).1 ∧
        (assignIDs 10 (scenario3Rows.map (mapRow runtime1000.floatOverflow 7 1000))).1.map
            eraseID =
          res.Rows.map (mapRow runtime1000.floatOverflow 7 runtime1000.now) ∧
        ∀ k : Int, k ≠ 7 →
          rowsOf k ((sqliteReportUsecase findConn7
              (remoteReturning scenario3Rows)).GetTopSlowQueries runtime1000 7 true
            { state := mixedDB, calls := [] }).2.state.table = rowsOf k mixedDB.table :=
  ⟨(C13_no_leftover_rows.1 7 (scenario3Rows.map (mapRow runtime1000.floatOverflow 7 1000))
      mixedDB (mapRow_connection runtime1000.floatOverflow 7 1000 scenario3Rows)
      (by rfl)).2.2.1
      (by
        intro r hr
        obtain ⟨row, _, hrow⟩ := List.mem_map.mp hr
        rw [← hrow]
        show (1000 : Time) ≠ zeroTime ∧ (1000 : Time) ≠ zeroTime
        exact ⟨by decide, by decide⟩),
    (C13_no_leftover_rows.1 7 (scenario3Rows.map (mapRow runtime1000.floatOverflow 7 1000))
      mixedDB (mapRow_connection runtime1000.floatOverflow 7 1000 scenario3Rows)
      (by rfl)).2.2.2,
    C13_no_leftover_rows.2 findConn7 (remoteReturning scenario3Rows) runtime1000 7 true
      { state := mixedDB, calls := [] }
      (assignIDs 10 (scenario3Rows.map (mapRow runtime1000.floatOverflow 7 1000))).1 1000
      (Or.inl rfl) (by rfl)⟩

/-- Every record that comes out of the identifier assignment agrees, on any projection that
ignores `ID`, with one of the records that went in. -/
theorem assignIDs_mem {α : Type} (f : SlowQueryReport → α)
    (hf : ∀ (r : SlowQueryReport) (id : Int), f { r with ID := id } = f r)
    (reports : List SlowQueryReport) (next : Int) (r : SlowQueryReport)
    (hr : r ∈ (assignIDs next reports).1) : ∃ r0 ∈ reports, f r0 = f r := by
  have hmem : f r ∈ (assignIDs next reports).1.map f := List.mem_map_of_mem _ hr
  rw [assignIDs_map f hf] at hmem
  exact List.mem_map.mp hmem

/-- C16 (snapshot timestamps): after a successful refresh against the local store (forced, or
no row cached for `c`), for any number of remote rows, the returned timestamp is the single
clock reading `rt.now` of the run and every returned report has `LastRefresh`, `CreatedAt`
and `UpdatedAt` equal to it; so do the rows then persisted for `c`. -/
theorem C16_snapshot_timestamps (find : Int → Except Error (Option CHConnection))
    (results : CHConnection → String → Except Error QueryResult) (rt : Runtime) (c : Int)
    (forceRefresh : Bool) (w : World DB) (reports : List SlowQueryReport) (t : Time)
    (hreach : forceRefresh = true ∨ rowsOf c w.state.table = [])
    (h : ((sqliteReportUsecase find results).GetTopSlowQueries rt c forceRefresh w).1 =
      Except.ok (reports, t)) :
    t = rt.now ∧
      (∀ r ∈ reports, r.LastRefresh = t ∧ r.CreatedAt = t ∧ r.UpdatedAt = t) ∧
      ∀ r ∈ rowsOf c ((sqliteReportUsecase find results).GetTopSlowQueries rt c forceRefresh
          w).2.state.table,
        r.LastRefresh = t ∧ r.CreatedAt = t ∧ r.UpdatedAt = t := by
  have htable := sqlite_refresh_table find results rt c forceRefresh w reports t hreach h
  rcases sqlite_GetTopSlowQueries_ok find results rt c forceRefresh w reports t h with
    ⟨hf, hne, hsort⟩ | ⟨conn, res, _, _, ht, hrep⟩
  · exfalso
    rcases hreach with h0 | h0
    · rw [hf] at h0
      cases h0
    · rw [h0] at hsort
      exact hne hsort
  · have hstamps : ∀ r ∈ reports, r.LastRefresh = t ∧ r.CreatedAt = t ∧ r.UpdatedAt = t := by
      intro r hr
      rw [hrep] at hr
      obtain ⟨r0, hr0, heq⟩ :=
        assignIDs_mem (fun x => (x.LastRefresh, x.CreatedAt, x.UpdatedAt)) (fun _ _ => rfl)
          _ _ r hr
      obtain ⟨row, _, hrow⟩ := List.mem_map.mp hr0
      rw [← hrow] at heq
      simp only [mapRow, Prod.mk.injEq] at heq
      rw [ht]
      exact ⟨heq.1.symm, heq.2.1.symm, heq.2.2.symm⟩
    have hids : ∀ r ∈ reports, r.ConnectionID = c := by
      rw [hrep]
      exact assignIDs_connection c _ _ (mapRow_connection rt.floatOverflow c rt.now res.Rows)
    refine ⟨ht, hstamps, ?_⟩
    rw [htable, rowsOf_replaced c _ _ hids]
    exact hstamps

/-- Witness of C16: the forced refresh of scenario 3 at clock reading 1000. -/
theorem C16_snapshot_timestamps_witness :
    (1000 : Time) = runtime1000.now ∧
      (∀ r ∈ scenario3Reports,
        r.LastRefresh = 1000 ∧ r.CreatedAt = 1000 ∧ r.UpdatedAt = 1000) ∧
      ∀ r ∈ rowsOf 7 ((sqliteReportUsecase findConn7
            (remoteReturning scenario3Rows)).GetTopSlowQueries runtime1000 7 true
          { state := seededDB, calls := [] }).2.state.table,
        r.LastRefresh = 1000 ∧ r.CreatedAt = 1000 ∧ r.UpdatedAt = 1000 :=
  C16_snapshot_timestamps findConn7 (remoteReturning scenario3Rows) runtime1000 7 true
    { state := seededDB, calls := [] } scenario3Reports 1000 (Or.inl rfl) (by rfl)

/-- C17 (connection identifier): every report returned by a successful `GetTopSlowQueries c`
against the local store has `ConnectionID = c`. On the cache-hit path the reports are a
rearrangement of the rows stored under `connection_id = c`; on the refresh path there are as
many reports as remote rows and the i-th report is the i-th remote row mapped, up to the
assigned identifier. -/
theorem C17_connection_id (find : Int → Except Error (Option CHConnection))
    (results : CHConnection → String → Except Error QueryResult) (rt : Runtime) (c : Int)
    (forceRefresh : Bool) (w : World DB) (reports : List SlowQueryReport) (t : Time)
    (h : ((sqliteReportUsecase find results).GetTopSlowQueries rt c forceRefresh w).1 =
      Except.ok (reports, t)) :
    (∀ r ∈ reports, r.ConnectionID = c) ∧
      ((forceRefresh = false ∧ reports ≠ [] ∧ List.Perm reports (rowsOf c w.state.table)) ∨
        ∃ (conn : CHConnection) (res : QueryResult),
          find c = Except.ok (some conn) ∧ results conn slowQuerySQL = Except.ok res ∧
          reports.length = res.Rows.length ∧
          reports.map eraseID = res.Rows.map (mapRow rt.floatOverflow c rt.now)) := by
  rcases sqlite_GetTopSlowQueries_ok find results rt c forceRefresh w reports t h with
    ⟨hf, hne, hsort⟩ | ⟨conn, res, hfind, hres, _, hrep⟩
  · have hperm : List.Perm reports (rowsOf c w.state.table) := by
      rw [hsort]
      exact List.perm_insertionSort maxDurationDesc _
    refine ⟨fun r hr => ?_, Or.inl ⟨hf, hne, hperm⟩⟩
    have hmem : r ∈ rowsOf c w.state.table := hperm.subset hr
    unfold rowsOf at hmem
    simpa using (List.mem_filter.mp hmem).2
  · have hmap : reports.map eraseID = res.Rows.map (mapRow rt.floatOverflow c rt.now) := by
      rw [hrep, assignIDs_map eraseID (fun _ _ => rfl), List.map_map]
      rfl
    have hlen : reports.length = res.Rows.length := by
      have := congrArg List.length hmap
      simpa using this
    refine ⟨?_, Or.inr ⟨conn, res, hfind, hres, hlen, hmap⟩⟩
    rw [hrep]
    exact assignIDs_connection c _ _ (mapRow_connection rt.floatOverflow c rt.now res.Rows)

/-- Witness of C17: the forced refresh of scenario 3 for connection 7. -/
theorem C17_connection_id_witness :
    (∀ r ∈ scenario3Reports, r.ConnectionID = 7) ∧
      ((true = false ∧ scenario3Reports ≠ [] ∧
          List.Perm scenario3Reports (rowsOf 7 seededDB.table)) ∨
        ∃ (conn : CHConnection) (res : QueryResult),
          findConn7 7 = Except.ok (some conn) ∧
          remoteReturning scenario3Rows conn slowQuerySQL = Except.ok res ∧
          scenario3Reports.length = res.Rows.length ∧
          scenario3Reports.map eraseID =
            res.Rows.map (mapRow runtime1000.floatOverflow 7 runtime1000.now)) :=
  C17_connection_id findConn7 (remoteReturning scenario3Rows) runtime1000 7 true
    { state := seededDB, calls := [] } scenario3Reports 1000 (by rfl)

/-- Integers of at most 53 bits are converted exactly. -/
theorem roundNat53_exact (n : Nat) (h : n ≤ 2 ^ 53) : roundNat53 n = n := by
  unfold roundNat53
  by_cases hlt : n < 2 ^ 53
  · rw [if_pos hlt]
  · have heq : n = 2 ^ 53 := le_antisymm h (not_lt.mp hlt)
    have hlog : Nat.log2 (2 ^ 53) = 53 := by
      apply le_antisymm
      · have := (Nat.log2_lt (n := 2 ^ 53) (k := 54) (by norm_num)).mpr (by norm_num)
        omega
      · exact (Nat.le_log2 (by norm_num)).mpr le_rfl
    subst heq
    rw [if_neg (by norm_num)]
    simp only [hlog]
    norm_num

/-- Rounding to 53 bits moves a natural by at most half a unit in the last place: by some `h`
with `h * 2 ^ 53 ≤ n`. -/
theorem roundNat53_near (n : Nat) :
    ∃ h : Nat, h * 2 ^ 53 ≤ n ∧ roundNat53 n ≤ n + h ∧ n ≤ roundNat53 n + h := by
  unfold roundNat53
  by_cases hlt : n < 2 ^ 53
  · rw [if_pos hlt]
    exact ⟨0, by simp, by simp, by simp⟩
  · have hge : 2 ^ 53 ≤ n := not_lt.mp hlt
    have hn0 : n ≠ 0 := by
      intro h0
      rw [h0] at hge
      norm_num at hge
    have hL : 53 ≤ Nat.log2 n := (Nat.le_log2 hn0).mpr hge
    have hpow : 2 ^ Nat.log2 n ≤ n := Nat.log2_self_le hn0
    obtain ⟨e, he⟩ : ∃ e, Nat.log2 n + 1 - 53 = e + 1 := ⟨Nat.log2 n - 53, by omega⟩
    have hLe : Nat.log2 n = e + 53 := by omega
    refine ⟨2 ^ e, ?_, ?_, ?_⟩
    · rw [← pow_add, ← hLe]
      exact hpow
    all_goals
      rw [if_neg hlt]
      simp only [he, Nat.add_sub_cancel]
      have hdm := Nat.div_add_mod n (2 ^ (e + 1))
      have hr := Nat.mod_lt n (show 0 < 2 ^ (e + 1) by positivity)
      have hP : 2 ^ (e + 1) = 2 * 2 ^ e := by rw [pow_succ]; ring
      have hA : (n / 2 ^ (e + 1) + 1) * 2 ^ (e + 1) =
          n / 2 ^ (e + 1) * 2 ^ (e + 1) + 2 ^ (e + 1) := by ring
      have hB : 2 ^ (e + 1) * (n / 2 ^ (e + 1)) = n / 2 ^ (e + 1) * 2 ^ (e + 1) := by ring
      rw [hB] at hdm
      generalize n / 2 ^ (e + 1) * 2 ^ (e + 1) = A at hdm hA ⊢
      generalize n % 2 ^ (e + 1) = r at hdm hr ⊢
      rw [hA]
      generalize 2 ^ (e + 1) = P at hP hr ⊢
      generalize 2 ^ e = H at hP ⊢
      split_ifs <;> omega

/-- The rounding error of a natural, as a rational, is at most `2 ^ (-53)` times the number. -/
theorem roundNat53_error (m : Nat) : |(roundNat53 m : ℚ) - (m : ℚ)| * 2 ^ 53 ≤ (m : ℚ) := by
  obtain ⟨h, h1, h2, h3⟩ := roundNat53_near m
  have h1q : (h : ℚ) * 2 ^ 53 ≤ (m : ℚ) := by exact_mod_cast h1
  have h2q : (roundNat53 m : ℚ) ≤ (m : ℚ) + (h : ℚ) := by exact_mod_cast h2
  have h3q : (m : ℚ) ≤ (roundNat53 m : ℚ) + (h : ℚ) := by exact_mod_cast h3
  have habs : |(roundNat53 m : ℚ) - (m : ℚ)| ≤ (h : ℚ) :=
    abs_le.mpr ⟨by linarith, by linarith⟩
  calc |(roundNat53 m : ℚ) - (m : ℚ)| * 2 ^ 53 ≤ (h : ℚ) * 2 ^ 53 :=
        mul_le_mul_of_nonneg_right habs (by positivity)
    _ ≤ (m : ℚ) := h1q

/-- The conversion `float64(n)` is exact for `|n| ≤ 2 ^ 53`. -/
theorem intToFloat64_exact (n : Int) (h : |n| ≤ 2 ^ 53) : intToFloat64 n = (n : ℚ) := by
  unfold intToFloat64
  by_cases hn : 0 ≤ n
  · rw [if_pos hn]
    have hle : n.toNat ≤ 2 ^ 53 := by
      have := abs_le.mp h
      omega
    rw [roundNat53_exact _ hle]
    have hcast : ((n.toNat : Int) : ℚ) = (n : ℚ) := by rw [Int.toNat_of_nonneg hn]
    exact_mod_cast hcast
  · rw [if_neg hn]
    have hle : (-n).toNat ≤ 2 ^ 53 := by
      have := abs_le.mp h
      omega
    rw [roundNat53_exact _ hle]
    have hcast : (((-n).toNat : Int) : ℚ) = ((-n : Int) : ℚ) := by
      rw [Int.toNat_of_nonneg (by omega)]
    have hcast2 : (((-n).toNat : Nat) : ℚ) = -(n : ℚ) := by
      have : (((-n).toNat : Int) : ℚ) = -(n : ℚ) := by rw [hcast]; push_cast; ring
      exact_mod_cast this
    rw [hcast2]
    ring

/-- The conversion `float64(n)` is within relative error `2 ^ (-53)` of `n`. -/
theorem intToFloat64_error (n : Int) :
    |intToFloat64 n - (n : ℚ)| * 2 ^ 53 ≤ |(n : ℚ)| := by
  unfold intToFloat64
  by_cases hn : 0 ≤ n
  · rw [if_pos hn]
    have hcast : ((n.toNat : Nat) : ℚ) = (n : ℚ) := by
      have : ((n.toNat : Int) : ℚ) = (n : ℚ) := by rw [Int.toNat_of_nonneg hn]
      exact_mod_cast this
    have herr := roundNat53_error n.toNat
    rw [hcast] at herr
    have hnq : (0 : ℚ) ≤ (n : ℚ) := by exact_mod_cast hn
    rw [abs_of_nonneg hnq]
    exact herr
  · rw [if_neg hn]
    have hcast : (((-n).toNat : Nat) : ℚ) = -(n : ℚ) := by
      have : (((-n).toNat : Int) : ℚ) = -(n : ℚ) := by
        rw [Int.toNat_of_nonneg (by omega)]
        push_cast
        ring
      exact_mod_cast this
    have herr := roundNat53_error (-n).toNat
    rw [hcast] at herr
    have hnq : (n : ℚ) < 0 := by exact_mod_cast (not_le.mp hn)
    rw [abs_of_neg hnq]
    have hflip : |-(roundNat53 (-n).toNat : ℚ) - (n : ℚ)| =
        |(roundNat53 (-n).toNat : ℚ) - -(n : ℚ)| := by
      rw [← abs_neg]
      congr 1
      ring
    rw [hflip]
    exact herr

/-- A non-negative `float64` below `2 ^ 64` converts to its integer part. -/
theorem float64ToUint64_inRange (ovf : ℚ → Nat) (x : ℚ) (h0 : 0 ≤ x) (h1 : x < 2 ^ 64) :
    float64ToUint64 ovf x = ⌊x⌋₊ := by
  have htrunc : truncQ x = ⌊x⌋ := by
    unfold truncQ
    rw [if_pos h0]
  have hlo : (0 : Int) ≤ ⌊x⌋ := Int.floor_nonneg.mpr h0
  have hhi : ⌊x⌋ < (2 : Int) ^ 64 := by
    apply Int.floor_lt.mpr
    push_cast
    exact h1
  unfold float64ToUint64
  rw [htrunc, if_pos ⟨hlo, hhi⟩]
  exact Int.floor_toNat x

/-- C14 (unsigned coercion): `getUint64` is a total function that returns `n` on an unsigned
64-bit `n`, `n` on a signed 64-bit `n ≥ 0`, the integer part (truncation toward zero, here the
floor) on a non-negative floating point value below `2 ^ 64`, and `0` on a string, a
timestamp, a string array, the nil value, an absent column and a value of any other type. -/
theorem C14_getUint64 (ovf : ℚ → Nat) :
    (∀ n : Nat, getUint64 ovf (Value.u64 n) = n) ∧
      (∀ n : Int, 0 ≤ n → n < 2 ^ 63 → (getUint64 ovf (Value.i64 n) : Int) = n) ∧
      (∀ x : ℚ, 0 ≤ x → x < 2 ^ 64 →
        getUint64 ovf (Value.f64 x) = ⌊x⌋₊ ∧
          (getUint64 ovf (Value.f64 x) : ℚ) ≤ x ∧
          x < (getUint64 ovf (Value.f64 x) : ℚ) + 1) ∧
      (∀ s : String, getUint64 ovf (Value.str s) = 0) ∧
      (∀ t : Time, getUint64 ovf (Value.time t) = 0) ∧
      (∀ xs : List String, getUint64 ovf (Value.strs xs) = 0) ∧
      getUint64 ovf Value.null = 0 ∧
      (∀ typeName : String, getUint64 ovf (Value.other typeName) = 0) ∧
      (∀ (row : Row) (key : String), row.lookup key = none →
        getUint64 ovf (row.get key) = 0) := by
  refine ⟨fun _ => rfl, ?_, ?_, fun _ => rfl, fun _ => rfl, fun _ => rfl, rfl, fun _ => rfl,
    ?_⟩
  · intro n h0 h1
    show ((int64ToUint64 n : Nat) : Int) = n
    unfold int64ToUint64
    norm_num at h1 ⊢
    omega
  · intro x h0 h1
    have hval : getUint64 ovf (Value.f64 x) = ⌊x⌋₊ := float64ToUint64_inRange ovf x h0 h1
    rw [hval]
    exact ⟨rfl, Nat.floor_le h0, Nat.lt_floor_add_one x⟩
  · intro row key hkey
    simp [Row.get, hkey, getUint64]

/-- Witness of C14 at sample values of each kind. -/
theorem C14_getUint64_witness :
    getUint64 runtime1000.floatOverflow (Value.u64 42) = 42 ∧
      (getUint64 runtime1000.floatOverflow (Value.i64 5) : Int) = 5 ∧
      (getUint64 runtime1000.floatOverflow (Value.f64 (7 / 2)) = ⌊(7 / 2 : ℚ)⌋₊ ∧
        (getUint64 runtime1000.floatOverflow (Value.f64 (7 / 2)) : ℚ) ≤ 7 / 2 ∧
        (7 / 2 : ℚ) < (getUint64 runtime1000.floatOverflow (Value.f64 (7 / 2)) : ℚ) + 1) ∧
      getUint64 runtime1000.floatOverflow (Value.str "12") = 0 ∧
      getUint64 runtime1000.floatOverflow ((remoteRow "SELECT a" 1).get "no_such_column") = 0 :=
  ⟨(C14_getUint64 runtime1000.floatOverflow).1 42,
    (C14_getUint64 runtime1000.floatOverflow).2.1 5 (by norm_num) (by norm_num),
    (C14_getUint64 runtime1000.floatOverflow).2.2.1 (7 / 2) (by norm_num) (by norm_num),
    (C14_getUint64 runtime1000.floatOverflow).2.2.2.1 "12",
    (C14_getUint64 runtime1000.floatOverflow).2.2.2.2.2.2.2.2 (remoteRow "SELECT a" 1)
      "no_such_column" (by rfl)⟩

/-- C15 (floating coercion): `getFloat64` is a total function that returns `x` on a floating
point `x`, the conversion `float64(n)` on a signed or unsigned 64-bit integer `n` (exact for
`|n| ≤ 2 ^ 53`, otherwise within relative error `2 ^ (-53)`), and `0` on a string, a timestamp,
a string array, the nil value, an absent column and a value of any other type. -/
theorem C15_getFloat64 :
    (∀ x : ℚ, getFloat64 (Value.f64 x) = x) ∧
      (∀ n : Int, getFloat64 (Value.i64 n) = intToFloat64 n ∧
        (|n| ≤ 2 ^ 53 → getFloat64 (Value.i64 n) = (n : ℚ)) ∧
        |getFloat64 (Value.i64 n) - (n : ℚ)| * 2 ^ 53 ≤ |(n : ℚ)|) ∧
      (∀ n : Nat, getFloat64 (Value.u64 n) = intToFloat64 (n : Int) ∧
        (n ≤ 2 ^ 53 → getFloat64 (Value.u64 n) = (n : ℚ)) ∧
        |getFloat64 (Value.u64 n) - (n : ℚ)| * 2 ^ 53 ≤ (n : ℚ)) ∧
      (∀ s : String, getFloat64 (Value.str s) = 0) ∧
      (∀ t : Time, getFloat64 (Value.time t) = 0) ∧
      (∀ xs : List String, getFloat64 (Value.strs xs) = 0) ∧
      getFloat64 Value.null = 0 ∧
      (∀ typeName : String, getFloat64 (Value.other typeName) = 0) ∧
      (∀ (row : Row) (key : String), row.lookup key = none → getFloat64 (row.get key) = 0) := by
  refine ⟨fun _ => rfl, ?_, ?_, fun _ => rfl, fun _ => rfl, fun _ => rfl, rfl, fun _ => rfl,
    ?_⟩
  · intro n
    exact ⟨rfl, fun h => intToFloat64_exact n h, intToFloat64_error n⟩
  · intro n
    refine ⟨rfl, fun h => ?_, ?_⟩
    · have hexact := intToFloat64_exact (n : Int) (by
        rw [abs_of_nonneg (by positivity)]
        exact_mod_cast h)
      show intToFloat64 (n : Int) = (n : ℚ)
      rw [hexact]
      push_cast
      rfl
    · have herr := intToFloat64_error (n : Int)
      have hcast : (((n : Int) : ℚ)) = (n : ℚ) := Int.cast_natCast n
      have habs : |(n : ℚ)| = (n : ℚ) := abs_of_nonneg (Nat.cast_nonneg n)
      rw [hcast, habs] at herr
      exact herr
  · intro row key hkey
    simp [Row.get, hkey, getFloat64]

/-- Witness of C15 at sample values of each kind. -/
theorem C15_getFloat64_witness :
    getFloat64 (Value.f64 (241 / 2)) = 241 / 2 ∧
      getFloat64 (Value.i64 (-5)) = ((-5 : Int) : ℚ) ∧
      getFloat64 (Value.u64 3400) = ((3400 : Nat) : ℚ) ∧
      getFloat64 (Value.str "1.5") = 0 ∧
      getFloat64 ((remoteRow "SELECT a" 1).get "no_such_column") = 0 :=
  ⟨C15_getFloat64.1 (241 / 2),
    (C15_getFloat64.2.1 (-5)).2.1 (by norm_num),
    (C15_getFloat64.2.2.1 3400).2.1 (by norm_num),
    C15_getFloat64.2.2.2.1 "1.5",
    C15_getFloat64.2.2.2.2.2.2.2.2 (remoteRow "SELECT a" 1) "no_such_column" (by rfl)⟩

/-- C18 (negative signed counts wrap): for a negative signed 64-bit `n`, `getUint64` returns
`2 ^ 64 + n`, which is at least `2 ^ 63` and not `0`; so a report field `Executions`,
`TotalRowsRead` or `TotalBytesRead` mapped from such a driver value is `2 ^ 64 + n`. -/
theorem C18_negative_wraps (ovf : ℚ → Nat) (n : Int) (hneg : n < 0) (hmin : -(2 ^ 63) ≤ n) :
    (getUint64 ovf (Value.i64 n) : Int) = 2 ^ 64 + n ∧
      2 ^ 63 ≤ getUint64 ovf (Value.i64 n) ∧
      getUint64 ovf (Value.i64 n) ≠ 0 ∧
      ∀ (c : Int) (now : Time) (row : Row),
        (row.get "executions" = Value.i64 n →
          ((mapRow ovf c now row).Executions : Int) = 2 ^ 64 + n) ∧
        (row.get "total_rows_read" = Value.i64 n →
          ((mapRow ovf c now row).TotalRowsRead : Int) = 2 ^ 64 + n) ∧
        (row.get "total_bytes_read" = Value.i64 n →
          ((mapRow ovf c now row).TotalBytesRead : Int) = 2 ^ 64 + n) := by
  have hval : (getUint64 ovf (Value.i64 n) : Int) = 2 ^ 64 + n := by
    show ((int64ToUint64 n : Nat) : Int) = 2 ^ 64 + n
    unfold int64ToUint64
    norm_num at hmin ⊢
    omega
  have hge : 2 ^ 63 ≤ getUint64 ovf (Value.i64 n) := by
    have : ((2 ^ 63 : Nat) : Int) ≤ (getUint64 ovf (Value.i64 n) : Int) := by
      rw [hval]
      norm_num at hmin ⊢
      omega
    exact_mod_cast this
  refine ⟨hval, hge, ?_, ?_⟩
  · intro h0
    rw [h0] at hge
    norm_num at hge
  · intro c now row
    refine ⟨fun h => ?_, fun h => ?_, fun h => ?_⟩
    · show (getUint64 ovf (row.get "executions") : Int) = 2 ^ 64 + n
      rw [h]
      exact hval
    · show (getUint64 ovf (row.get "total_rows_read") : Int) = 2 ^ 64 + n
      rw [h]
      exact hval
    · show (getUint64 ovf (row.get "total_bytes_read") : Int) = 2 ^ 64 + n
      rw [h]
      exact hval

/-- Witness of C18: the signed value `-1` becomes `2 ^ 64 - 1`. -/
theorem C18_negative_wraps_witness :
    (getUint64 runtime1000.floatOverflow (Value.i64 (-1)) : Int) = 2 ^ 64 + -1 ∧
      2 ^ 63 ≤ getUint64 runtime1000.floatOverflow (Value.i64 (-1)) ∧
      getUint64 runtime1000.floatOverflow (Value.i64 (-1)) ≠ 0 ∧
      getUint64 runtime1000.floatOverflow (Value.i64 (-1)) = 18446744073709551615 :=
  ⟨(C18_negative_wraps runtime1000.floatOverflow (-1) (by norm_num) (by norm_num)).1,
    (C18_negative_wraps runtime1000.floatOverflow (-1) (by norm_num) (by norm_num)).2.1,
    (C18_negative_wraps runtime1000.floatOverflow (-1) (by norm_num) (by norm_num)).2.2.1,
    by rfl⟩

end ChManager
